import Mathlib

/-!
# Descriptor pool management of the Vulkan renderer

A shallow embedding of `video_core/renderer_vulkan/vk_descriptor_pool.cpp`:
bank infos and their matching, physical pool creation, the three attempts of
`DescriptorAllocator::AllocateDescriptors`, the allocator's `Commit`, and the
bank registry `DescriptorPool::Bank`.

Machine integers are natural numbers (or integers) with the wrap-around of the
source type written out.  Everything the code obtains from the Vulkan driver
or from the master semaphore is an explicit argument (`Device`, `World`).
-/

namespace Vulkan

/-! ## Constants and machine integers -/

/-- Number of values of a `u32`. -/
def U32_SIZE : Nat := 4294967296

/-- Conversion of a `u32` value to `s32` (two's complement). -/
def toS32 (x : Nat) : Int :=
  if x % U32_SIZE < 2147483648 then ((x % U32_SIZE : Nat) : Int)
  else ((x % U32_SIZE : Nat) : Int) - 4294967296

/-- Reduction of an integer to the range of an `s32` (two's complement
wrap-around), the value compiled code leaves in a 32-bit register. -/
def wrapS32 (x : Int) : Int := (x + 2147483648) % 4294967296 - 2147483648

/-- `std::abs` on an `s32`: the negation wraps, so the most negative value is
its own absolute value. -/
def absS32 (x : Int) : Int := wrapS32 (if x < 0 then -x else x)

/-- Growth step of a descriptor allocator: `constexpr size_t SETS_GROW_RATE = 16`. -/
def SETS_GROW_RATE : Nat := 16

/-- Score distance below which two bank infos may share a bank:
`constexpr s32 SCORE_THRESHOLD = 3`. -/
def SCORE_THRESHOLD : Int := 3

/-! ## Bank infos -/

/-- Modelled from the spec: the declaration of `DescriptorBankInfo` lives in
`vk_descriptor_pool.h`, which is not part of the source tree.  Section 3 of the
specification gives it six non-negative counts and a derived `score`.  The
counts are `u32` values (they are accumulated from `u32` sums and passed to a
`u32` parameter in `AllocatePool`), the score is an `s32` (it is compared with
the `s32` constant `SCORE_THRESHOLD` through `std::abs`). -/
structure DescriptorBankInfo where
  uniform_buffers : Nat
  storage_buffers : Nat
  texture_buffers : Nat
  image_buffers : Nat
  textures : Nat
  images : Nat
  score : Int
deriving DecidableEq, Repr

/-- Value-initialised bank info (`DescriptorBankInfo bank;` with the member
initialisers `{}`): all counts and the score are zero. -/
def DescriptorBankInfo.zero : DescriptorBankInfo :=
  { uniform_buffers := 0, storage_buffers := 0, texture_buffers := 0,
    image_buffers := 0, textures := 0, images := 0, score := 0 }

/-- Embedding of `DescriptorBankInfo::IsSuperset` (lines 28-32).  The last
conjunct compares `images` with `subset.image_buffers`, as the source does. -/
def DescriptorBankInfo.IsSuperset (self subset : DescriptorBankInfo) : Bool :=
  decide (self.uniform_buffers ≥ subset.uniform_buffers) &&
  decide (self.storage_buffers ≥ subset.storage_buffers) &&
  decide (self.texture_buffers ≥ subset.texture_buffers) &&
  decide (self.image_buffers ≥ subset.image_buffers) &&
  decide (self.textures ≥ subset.textures) &&
  decide (self.images ≥ subset.image_buffers)

/-- One descriptor entry of a shader report; only its `count` is read here. -/
structure Descriptor where
  count : Nat
deriving DecidableEq, Repr

/-- Modelled from the spec: `Shader::Info` is declared in the shader
recompiler, outside the source tree.  It is the per-shader descriptor-count
report of section 6: six sequences of descriptors, one per descriptor type. -/
structure ShaderInfo where
  constant_buffer_descriptors : List Descriptor
  storage_buffers_descriptors : List Descriptor
  texture_buffer_descriptors : List Descriptor
  image_buffer_descriptors : List Descriptor
  texture_descriptors : List Descriptor
  image_descriptors : List Descriptor
deriving DecidableEq, Repr

/-- Embedding of `Accumulate` (lines 34-41): a `u32` accumulator, so every
addition wraps modulo `2^32`. -/
def Accumulate (descriptors : List Descriptor) : Nat :=
  descriptors.foldl (fun count descriptor => (count + descriptor.count) % U32_SIZE) 0

/-- Body of the loop of `MakeBankInfo` (lines 46-51) for one shader report. -/
def MakeBankInfo.step (bank : DescriptorBankInfo) (info : ShaderInfo) : DescriptorBankInfo :=
  { bank with
    uniform_buffers :=
      (bank.uniform_buffers + Accumulate info.constant_buffer_descriptors) % U32_SIZE
    storage_buffers :=
      (bank.storage_buffers + Accumulate info.storage_buffers_descriptors) % U32_SIZE
    texture_buffers :=
      (bank.texture_buffers + Accumulate info.texture_buffer_descriptors) % U32_SIZE
    image_buffers :=
      (bank.image_buffers + Accumulate info.image_buffer_descriptors) % U32_SIZE
    textures := (bank.textures + Accumulate info.texture_descriptors) % U32_SIZE
    images := (bank.images + Accumulate info.image_descriptors) % U32_SIZE }

/-- Embedding of `MakeBankInfo` (lines 43-56).  The score is the `u32` sum of
the six counts converted to `s32`. -/
def MakeBankInfo (infos : List ShaderInfo) : DescriptorBankInfo :=
  let bank := infos.foldl MakeBankInfo.step DescriptorBankInfo.zero
  { bank with
    score := toS32 (bank.uniform_buffers + bank.storage_buffers + bank.texture_buffers +
                    bank.image_buffers + bank.textures + bank.images) }

/-! ## The driver interface -/

/-- The six descriptor types `AllocatePool` sizes a pool for. -/
inductive VkDescriptorType where
  | VK_DESCRIPTOR_TYPE_UNIFORM_BUFFER
  | VK_DESCRIPTOR_TYPE_STORAGE_BUFFER
  | VK_DESCRIPTOR_TYPE_UNIFORM_TEXEL_BUFFER
  | VK_DESCRIPTOR_TYPE_STORAGE_TEXEL_BUFFER
  | VK_DESCRIPTOR_TYPE_COMBINED_IMAGE_SAMPLER
  | VK_DESCRIPTOR_TYPE_STORAGE_IMAGE
deriving DecidableEq, Repr

/-- Outcomes of a descriptor set allocation that `AllocateDescriptors`
distinguishes: success and the two recoverable capacity errors. -/
inductive VkResult where
  | VK_SUCCESS
  | VK_ERROR_OUT_OF_POOL_MEMORY
  | VK_ERROR_FRAGMENTED_POOL
deriving DecidableEq, Repr

/-- One entry of the pool-size table. -/
structure VkDescriptorPoolSize where
  type : VkDescriptorType
  descriptorCount : Nat
deriving DecidableEq, Repr

/-- The creation request handed to the driver.  `pPoolSizes` lists the first
`poolSizeCount` slots of the six-slot array, the ones the driver reads. -/
structure VkDescriptorPoolCreateInfo where
  flags : Nat
  maxSets : Nat
  poolSizeCount : Nat
  pPoolSizes : List VkDescriptorPoolSize
deriving DecidableEq, Repr

/-- What the code reads from the device: `GetSetsPerPool()`, a `u32`. -/
structure Device where
  sets_per_pool : Nat
deriving DecidableEq, Repr

/-- What one call of `AllocateDescriptors` observes of its surroundings: the
allocator's `current_tick`; the value `master_semaphore.LastCompletedFence()`
reports when it is polled for record `i` (the poll sits inside the loop, so
each record may see its own value); the driver's answer to an allocation
made on the pool of record `i` after `r` resets of that pool; and the driver's
answer to a pool creation request (`true`: a pool is handed out, `false`: the
creation fails). -/
structure World where
  current_tick : Nat
  LastCompletedFence : Nat → Nat
  vkAllocateDescriptorSets : Nat → Nat → VkResult
  vkCreateDescriptorPool : Bool

/-- Calls made to the driver, in the order the code makes them.  An
`allocate` entry records the record index, the tick of the call and the
driver's answer; a `reset` entry records the record index together with the
values the guard of the second attempt read (`previously_out_of_memory`,
`last_submission_id_associated`) and the completed fence it compared with;
a `create` entry records the creation request. -/
inductive Event where
  | allocate (pool : Nat) (tick : Nat) (result : VkResult)
  | reset (pool : Nat) (previously_out_of_memory : Bool)
      (last_submission_id_associated : Nat) (completed : Nat)
  | create (info : VkDescriptorPoolCreateInfo)
deriving DecidableEq, Repr

namespace vk

/-- Modelled from the spec: the driver-handle wrapper `vk::DescriptorPool`
(vulkan_wrapper) is outside the source tree.  The handle is represented by the
request it was created with; `resets` is a ghost counter of how many times the
pool has been reset, used only to tell apart the sets of different reset
generations. -/
structure DescriptorPool where
  create_info : VkDescriptorPoolCreateInfo
  resets : Nat
deriving DecidableEq, Repr

/-- Modelled from the spec: the wrapper's `vk::DescriptorSets`, the answer of
one allocation.  `result` is the driver's result code; `pool` and `generation`
are ghost fields naming the record the sets were drawn from and the reset
generation of its pool at that moment; `size` is the number of sets held. -/
structure DescriptorSets where
  result : VkResult
  pool : Nat
  generation : Nat
  size : Nat
deriving DecidableEq, Repr

/-- Modelled from the spec: `IsOutOfPoolMemory` holds for the two recoverable
capacity errors (out of pool memory, fragmented pool). -/
def DescriptorSets.IsOutOfPoolMemory (self : DescriptorSets) : Bool :=
  match self.result with
  | VkResult.VK_SUCCESS => false
  | VkResult.VK_ERROR_OUT_OF_POOL_MEMORY => true
  | VkResult.VK_ERROR_FRAGMENTED_POOL => true

/-- Accessor `GetResult`. -/
def DescriptorSets.GetResult (self : DescriptorSets) : VkResult := self.result

/-- Modelled from the spec: `allocate_sets(pool, layout, count)` of section 6.
The driver answers through `World.vkAllocateDescriptorSets`; on success the
object holds `descriptorSetCount = static_cast<u32>(count)` sets. -/
def DescriptorPool.Allocate (self : DescriptorPool) (w : World) (index count : Nat) :
    DescriptorSets :=
  let result := w.vkAllocateDescriptorSets index self.resets
  { result := result, pool := index, generation := self.resets,
    size := if result = VkResult.VK_SUCCESS then count % U32_SIZE else 0 }

/-- Modelled from the spec: the fatal error of section 7, thrown to the caller
as a `vk::Exception`.  It names the failing operation: the allocation from a
freshly created pool, with the result code the source passes at line 174, or
the creation of a pool. -/
inductive Exception where
  | allocation (result : VkResult)
  | creation
deriving DecidableEq, Repr

/-- Modelled from the spec: `create_pool(type_size_table, max_sets) ->
PoolHandle | FatalError` of section 6.  `created` is the driver's answer; on
failure the wrapper throws and no handle exists. -/
def CreateDescriptorPool (created : Bool) (create_info : VkDescriptorPoolCreateInfo) :
    Option DescriptorPool :=
  if created then some { create_info := create_info, resets := 0 } else none

/-- Modelled from the spec: `reset_pool(pool)` returns every set of the pool
to it; the handle stays the same and its ghost generation advances. -/
def DescriptorPool.Reset (self : DescriptorPool) : DescriptorPool :=
  { self with resets := self.resets + 1 }

end vk

/-! ## Physical pool records and banks -/

/-- Modelled from the spec: `PoolData` (declared in the missing header) is
the Physical Pool Record of section 3, with the three members the source
initialises at lines 77-88. -/
structure PoolData where
  pool : vk.DescriptorPool
  last_submission_id_associated : Nat
  previously_out_of_memory : Bool
deriving DecidableEq, Repr

/-- Embedding of `struct DescriptorBank` (lines 23-26). -/
structure DescriptorBank where
  info : DescriptorBankInfo
  pools : List PoolData
deriving DecidableEq, Repr

/-- The lambda `add` of `AllocatePool` (lines 62-69): `pool_sizes` is the
filled part of the array, its length is `pool_cursor`.  The product is a `u32`
product. -/
def AllocatePool.add (sets_per_pool : Nat) (pool_sizes : List VkDescriptorPoolSize)
    (type : VkDescriptorType) (count : Nat) : List VkDescriptorPoolSize :=
  if count > 0 then
    pool_sizes ++ [{ type := type, descriptorCount := (count * sets_per_pool) % U32_SIZE }]
  else pool_sizes

/-- The pool-size table built at lines 70-76. -/
def AllocatePool.pool_sizes (device : Device) (info : DescriptorBankInfo) :
    List VkDescriptorPoolSize :=
  let add := AllocatePool.add device.sets_per_pool
  let t := add [] VkDescriptorType.VK_DESCRIPTOR_TYPE_UNIFORM_BUFFER info.uniform_buffers
  let t := add t VkDescriptorType.VK_DESCRIPTOR_TYPE_STORAGE_BUFFER info.storage_buffers
  let t := add t VkDescriptorType.VK_DESCRIPTOR_TYPE_UNIFORM_TEXEL_BUFFER info.texture_buffers
  let t := add t VkDescriptorType.VK_DESCRIPTOR_TYPE_STORAGE_TEXEL_BUFFER info.image_buffers
  let t := add t VkDescriptorType.VK_DESCRIPTOR_TYPE_COMBINED_IMAGE_SAMPLER info.textures
  add t VkDescriptorType.VK_DESCRIPTOR_TYPE_STORAGE_IMAGE info.images

/-- The creation request of lines 78-85. -/
def AllocatePool.create_info (device : Device) (info : DescriptorBankInfo) :
    VkDescriptorPoolCreateInfo :=
  let pool_sizes := AllocatePool.pool_sizes device info
  { flags := 0, maxSets := device.sets_per_pool,
    poolSizeCount := pool_sizes.length % U32_SIZE, pPoolSizes := pool_sizes }

/-- Embedding of `AllocatePool` (lines 58-89).  The pool is created while the
argument of `push_back` is evaluated: when the driver hands out a pool
(`created`), one record is pushed to the back of `bank.pools`; when the
creation fails the exception leaves `bank.pools` as it was, which is the
result `none`. -/
def AllocatePool (device : Device) (created : Bool) (bank : DescriptorBank) :
    Option DescriptorBank :=
  match vk.CreateDescriptorPool created (AllocatePool.create_info device bank.info) with
  | some pool =>
    some { bank with
      pools := bank.pools ++
        [{ pool := pool,
           last_submission_id_associated := 0,
           previously_out_of_memory := false }] }
  | none => none

/-! ## The three attempts of `AllocateDescriptors` -/

/-- State after one attempt: the records, the driver calls made, and the sets
when the attempt returned some. -/
structure Attempt where
  pools : List PoolData
  calls : List Event
  new_sets : Option vk.DescriptorSets
deriving DecidableEq, Repr

/-- Attempt 1 (lines 115-129): try the last pool first. -/
def DescriptorAllocator.Attempt1 (w : World) (count : Nat) (pools : List PoolData) : Attempt :=
  match pools.getLast? with
  | none => { pools := pools, calls := [], new_sets := none }
  | some last_pool_data =>
    let index := pools.length - 1
    let new_sets := last_pool_data.pool.Allocate w index count
    if !new_sets.IsOutOfPoolMemory then
      { pools := pools.dropLast ++
          [{ last_pool_data with
             last_submission_id_associated := w.current_tick
             previously_out_of_memory := false }],
        calls := [Event.allocate index w.current_tick new_sets.result],
        new_sets := some new_sets }
    else
      { pools := pools.dropLast ++ [{ last_pool_data with previously_out_of_memory := true }],
        calls := [Event.allocate index w.current_tick new_sets.result],
        new_sets := none }

/-- Attempt 2 (lines 131-156): the loop over the records, from the record at
position `index` on; `pools` is the part of the vector not yet visited. -/
def DescriptorAllocator.Attempt2 (w : World) (count : Nat) :
    Nat → List PoolData → Attempt
  | _, [] => { pools := [], calls := [], new_sets := none }
  | index, pool_data :: rest =>
    if pool_data.previously_out_of_memory &&
        decide (w.LastCompletedFence index ≥ pool_data.last_submission_id_associated) then
      let reset_call := Event.reset index pool_data.previously_out_of_memory
        pool_data.last_submission_id_associated (w.LastCompletedFence index)
      let pool_data : PoolData :=
        { pool := pool_data.pool.Reset,
          last_submission_id_associated := 0,
          previously_out_of_memory := false }
      let new_sets := pool_data.pool.Allocate w index count
      let allocate_call := Event.allocate index w.current_tick new_sets.result
      if !new_sets.IsOutOfPoolMemory then
        { pools := { pool_data with last_submission_id_associated := w.current_tick } :: rest,
          calls := [reset_call, allocate_call],
          new_sets := some new_sets }
      else
        let later := DescriptorAllocator.Attempt2 w count (index + 1) rest
        { pools := { pool_data with previously_out_of_memory := true } :: later.pools,
          calls := reset_call :: allocate_call :: later.calls,
          new_sets := later.new_sets }
    else
      let later := DescriptorAllocator.Attempt2 w count (index + 1) rest
      { pools := pool_data :: later.pools, calls := later.calls, new_sets := later.new_sets }

/-- What a call of `AllocateDescriptors` leaves behind: the bank, the driver
calls it made, and either the sets it returns or the exception it throws. -/
structure AllocateResult where
  bank : DescriptorBank
  calls : List Event
  ret : Except vk.Exception vk.DescriptorSets

/-- Attempt 3 (lines 158-175): allocate a new pool and try it once.  When the
pool creation fails, the exception of `AllocatePool` leaves the call with the
bank as the earlier attempts left it. -/
def DescriptorAllocator.Attempt3 (device : Device) (w : World) (count : Nat)
    (bank : DescriptorBank) : AllocateResult :=
  let create_call := Event.create (AllocatePool.create_info device bank.info)
  match grown : AllocatePool device w.vkCreateDescriptorPool bank with
  | none =>
    { bank := bank, calls := [create_call], ret := Except.error vk.Exception.creation }
  | some bank =>
    let index := bank.pools.length - 1
    let new_physical_pool_data := bank.pools.getLast (by
      simp only [AllocatePool] at grown
      split at grown
      · injection grown with grown
        rw [← grown]
        simp
      · cases grown)
    let new_sets := new_physical_pool_data.pool.Allocate w index count
    let allocate_call := Event.allocate index w.current_tick new_sets.result
    if !new_sets.IsOutOfPoolMemory then
      { bank := { bank with
          pools := bank.pools.dropLast ++
            [{ new_physical_pool_data with last_submission_id_associated := w.current_tick }] },
        calls := [create_call, allocate_call],
        ret := Except.ok new_sets }
    else
      { bank := bank, calls := [create_call, allocate_call],
        ret := Except.error (vk.Exception.allocation new_sets.GetResult) }

/-- Embedding of `DescriptorAllocator::AllocateDescriptors` (lines 105-175). -/
def DescriptorAllocator.AllocateDescriptors (device : Device) (w : World)
    (bank : DescriptorBank) (count : Nat) : AllocateResult :=
  let first := DescriptorAllocator.Attempt1 w count bank.pools
  match first.new_sets with
  | some new_sets =>
    { bank := { bank with pools := first.pools }, calls := first.calls,
      ret := Except.ok new_sets }
  | none =>
    let second := DescriptorAllocator.Attempt2 w count 0 first.pools
    match second.new_sets with
    | some new_sets =>
      { bank := { bank with pools := second.pools }, calls := first.calls ++ second.calls,
        ret := Except.ok new_sets }
    | none =>
      let third := DescriptorAllocator.Attempt3 device w count { bank with pools := second.pools }
      { third with calls := first.calls ++ second.calls ++ third.calls }

/-! ## The allocator -/

/-- A descriptor set handle: the slot of a chunk, with the chunk's ghost
fields (owning record and reset generation of its pool at allocation). -/
structure VkDescriptorSet where
  pool : Nat
  generation : Nat
  slot : Nat
deriving DecidableEq, Repr

/-- Indexing of `vk::DescriptorSets`; `none` outside the held sets. -/
def vk.DescriptorSets.get? (self : vk.DescriptorSets) (i : Nat) : Option VkDescriptorSet :=
  if i < self.size then some { pool := self.pool, generation := self.generation, slot := i }
  else none

/-- State of a `DescriptorAllocator`: the materialized chunks `sets` and the
counter of its `ResourcePool` base (how many sets have been committed). -/
structure DescriptorAllocator where
  sets : List vk.DescriptorSets
  committed : Nat
deriving DecidableEq, Repr

/-- Outcome of an allocator operation: the bank and the allocator afterwards,
the driver calls made, and the value returned or the exception thrown. -/
structure CommitResult (α : Type) where
  bank : DescriptorBank
  allocator : DescriptorAllocator
  calls : List Event
  ret : Except vk.Exception α

/-- Embedding of `DescriptorAllocator::Allocate` (lines 101-103). -/
def DescriptorAllocator.Allocate (device : Device) (w : World) (bank : DescriptorBank)
    (self : DescriptorAllocator) (first last : Nat) : CommitResult Unit :=
  let r := DescriptorAllocator.AllocateDescriptors device w bank (last - first)
  match r.ret with
  | Except.ok new_sets =>
    { bank := r.bank, allocator := { self with sets := self.sets ++ [new_sets] },
      calls := r.calls, ret := Except.ok () }
  | Except.error e =>
    { bank := r.bank, allocator := self, calls := r.calls, ret := Except.error e }

/-- Modelled from the spec: `ResourcePool::CommitResource` (vk_resource_pool)
is outside the source tree.  Section 4.4: an internal counter tracks the sets
handed out; when the counter crosses a chunk boundary the allocator invokes
`Allocate` for one chunk (`SETS_GROW_RATE` sets) and appends it; the next
index is returned. -/
def DescriptorAllocator.CommitResource (device : Device) (w : World) (bank : DescriptorBank)
    (self : DescriptorAllocator) : CommitResult Nat :=
  let index := self.committed
  if index % SETS_GROW_RATE = 0 then
    let r := DescriptorAllocator.Allocate device w bank self index (index + SETS_GROW_RATE)
    match r.ret with
    | Except.ok _ =>
      { bank := r.bank, allocator := { r.allocator with committed := index + 1 },
        calls := r.calls, ret := Except.ok index }
    | Except.error e =>
      { bank := r.bank, allocator := r.allocator, calls := r.calls, ret := Except.error e }
  else
    { bank := bank, allocator := { self with committed := index + 1 }, calls := [],
      ret := Except.ok index }

/-- Embedding of `DescriptorAllocator::Commit` (lines 96-99).  The value is
`none` when the double indexing falls outside the materialized chunks. -/
def DescriptorAllocator.Commit (device : Device) (w : World) (bank : DescriptorBank)
    (self : DescriptorAllocator) : CommitResult (Option VkDescriptorSet) :=
  let r := DescriptorAllocator.CommitResource device w bank self
  match r.ret with
  | Except.ok index =>
    { bank := r.bank, allocator := r.allocator, calls := r.calls,
      ret := Except.ok
        (r.allocator.sets[index / SETS_GROW_RATE]?.bind
          (fun chunk => chunk.get? (index % SETS_GROW_RATE))) }
  | Except.error e =>
    { bank := r.bank, allocator := r.allocator, calls := r.calls, ret := Except.error e }

/-! ## The bank registry -/

/-- State of `DescriptorPool`: the two parallel vectors `bank_infos` and
`banks`. -/
structure DescriptorPool where
  bank_infos : List DescriptorBankInfo
  banks : List DescriptorBank
deriving DecidableEq, Repr

/-- The predicate of the `find_if` at lines 199-201.  Scores are `s32`: the
subtraction and `std::abs` are the 32-bit operations, which wrap around when
the true difference does not fit. -/
def DescriptorPool.is_match (reqs bank : DescriptorBankInfo) : Bool :=
  decide (absS32 (wrapS32 (bank.score - reqs.score)) < SCORE_THRESHOLD) && bank.IsSuperset reqs

/-- Result of `DescriptorPool::Bank`: the position in `banks` of the bank the
returned reference designates, the registry afterwards, the driver calls
made, and the exception thrown, if any (no reference is returned then, and
`index` is the position of the bank the call had appended). -/
structure BankResult where
  index : Nat
  registry : DescriptorPool
  calls : List Event
  thrown : Option vk.Exception
deriving DecidableEq, Repr

/-- Embedding of `DescriptorPool::Bank` (lines 197-214).  `it` is the distance
of the iterator from `bank_infos.begin()`; `created` is the driver's answer to
the pool creation request a miss makes.  On a miss the info and the bank are
pushed before `AllocatePool` runs (lines 208-211), so a failed creation leaves
them in the registry, the bank without a record. -/
def DescriptorPool.Bank (device : Device) (created : Bool) (self : DescriptorPool)
    (reqs : DescriptorBankInfo) : BankResult :=
  let it := self.bank_infos.findIdx (DescriptorPool.is_match reqs)
  if it ≠ self.bank_infos.length then
    { index := it, registry := self, calls := [], thrown := none }
  else
    let bank : DescriptorBank := { info := reqs, pools := [] }
    match AllocatePool device created bank with
    | some bank =>
      { index := self.banks.length,
        registry := { bank_infos := self.bank_infos ++ [reqs], banks := self.banks ++ [bank] },
        calls := [Event.create (AllocatePool.create_info device reqs)],
        thrown := none }
    | none =>
      { index := self.banks.length,
        registry := { bank_infos := self.bank_infos ++ [reqs], banks := self.banks ++ [bank] },
        calls := [Event.create (AllocatePool.create_info device reqs)],
        thrown := some vk.Exception.creation }

/-! ## Specification-side definitions and sample inputs -/

/-- The total the specification speaks of: over all reports and all
descriptors of one type (selected by `sel`) in each report, the sum of the
descriptor counts, in the natural numbers. -/
def count_total (sel : ShaderInfo → List Descriptor) (infos : List ShaderInfo) : Nat :=
  (infos.map (fun info => ((sel info).map Descriptor.count).sum)).sum

/-- The grand total of all descriptor counts of all six types. -/
def grand_total (infos : List ShaderInfo) : Nat :=
  count_total ShaderInfo.constant_buffer_descriptors infos +
  count_total ShaderInfo.storage_buffers_descriptors infos +
  count_total ShaderInfo.texture_buffer_descriptors infos +
  count_total ShaderInfo.image_buffer_descriptors infos +
  count_total ShaderInfo.texture_descriptors infos +
  count_total ShaderInfo.image_descriptors infos

/-- The superset relation in the specification's words: every one of the six
counts of `a` is at least the corresponding count of `b`. -/
def covers (a b : DescriptorBankInfo) : Prop :=
  a.uniform_buffers ≥ b.uniform_buffers ∧ a.storage_buffers ≥ b.storage_buffers ∧
  a.texture_buffers ≥ b.texture_buffers ∧ a.image_buffers ≥ b.image_buffers ∧
  a.textures ≥ b.textures ∧ a.images ≥ b.images

instance (a b : DescriptorBankInfo) : Decidable (covers a b) := by
  unfold covers
  infer_instance

/-- A device with sixteen sets per pool. -/
def sample_device : Device := { sets_per_pool := 16 }

/-- The empty registry. -/
def empty_registry : DescriptorPool := { bank_infos := [], banks := [] }

/-- A footprint with one storage texel buffer and nothing else; its score is
the sum of its counts. -/
def one_image_buffer : DescriptorBankInfo :=
  { DescriptorBankInfo.zero with image_buffers := 1, score := 1 }

/-- A footprint with one storage image and nothing else. -/
def one_image : DescriptorBankInfo :=
  { DescriptorBankInfo.zero with images := 1, score := 1 }

/-- The footprint of end-to-end scenario 1: four uniform buffers, score 4. -/
def four_uniform_buffers : DescriptorBankInfo :=
  { DescriptorBankInfo.zero with uniform_buffers := 4, score := 4 }

/-- A stored footprint of score 10: ten storage texel buffers. -/
def ten_image_buffers : DescriptorBankInfo :=
  { DescriptorBankInfo.zero with image_buffers := 10, score := 10 }

/-- A request of score 11 whose six counts equal those of `ten_image_buffers`. -/
def ten_image_buffers_score_11 : DescriptorBankInfo :=
  { DescriptorBankInfo.zero with image_buffers := 10, score := 11 }

/-- A registry holding one bank, created for `ten_image_buffers`. -/
def registry_score_10 : DescriptorPool :=
  (DescriptorPool.Bank sample_device true empty_registry ten_image_buffers).registry

/-- A shader report with two constant buffer descriptors of `2^31` entries
each. -/
def huge_report : ShaderInfo :=
  { constant_buffer_descriptors := [{ count := 2147483648 }, { count := 2147483648 }],
    storage_buffers_descriptors := [], texture_buffer_descriptors := [],
    image_buffer_descriptors := [], texture_descriptors := [], image_descriptors := [] }

/-- A shader report with three constant buffers of one entry and two textures
of two entries. -/
def small_report : ShaderInfo :=
  { constant_buffer_descriptors := [{ count := 1 }, { count := 1 }, { count := 1 }],
    storage_buffers_descriptors := [], texture_buffer_descriptors := [],
    image_buffer_descriptors := [], texture_descriptors := [{ count := 2 }, { count := 2 }],
    image_descriptors := [] }

/-! ## Histories of calls -/

/-- One `AllocateDescriptors` call of a history: what it observes and the
number of sets it asks for. -/
structure Call where
  world : World
  count : Nat

/-- A sequence of `AllocateDescriptors` calls on one bank: the bank after the
last call and all driver calls made, in order.  A call that throws leaves the
bank as it was at the throw. -/
def run (device : Device) : DescriptorBank → List Call → DescriptorBank × List Event
  | bank, [] => (bank, [])
  | bank, c :: rest =>
    let r := DescriptorAllocator.AllocateDescriptors device c.world bank c.count
    ((run device r.bank rest).1, r.calls ++ (run device r.bank rest).2)

/-- Effect of one driver call on the tick stamped by the most recent
successful allocation from record `i` since its last reset. -/
def stamp_step (i : Nat) (s : Option Nat) : Event → Option Nat
  | Event.allocate pool tick result =>
    if pool = i ∧ result = VkResult.VK_SUCCESS then some tick else s
  | Event.reset pool _ _ _ => if pool = i then none else s
  | Event.create _ => s

/-- The tick stamped by the most recent successful allocation from record `i`
since its last reset, read off a history of driver calls; `none` when there
has been no successful allocation from it since its last reset. -/
def last_stamp (i : Nat) (h : List Event) : Option Nat :=
  h.foldl (stamp_step i) none

/-- Every stamp readable from the history is the value stored in the record. -/
def stamps_recorded (h : List Event) (pools : List PoolData) : Prop :=
  ∀ i t, last_stamp i h = some t →
    ∃ p, pools[i]? = some p ∧ p.last_submission_id_associated = t

/-- Every reset of the history was made on a record marked out of memory whose
last stamp, if any, had been reached by the completed fence. -/
def resets_safe (h : List Event) : Prop :=
  ∀ k i oom last completed, h[k]? = some (Event.reset i oom last completed) →
    oom = true ∧
    (last_stamp i (h.take k) = none ∨
      ∃ t, last_stamp i (h.take k) = some t ∧ completed ≥ t)

/-- What holds of the sets `s` an allocation returned and of the records
afterwards: the record `s` names exists, carries the tick of the call and a
cleared flag, and its pool is in the reset generation `s` was drawn from. -/
def drawn_from (w : World) (pools : List PoolData) (s : vk.DescriptorSets) : Prop :=
  ∃ p, pools[s.pool]? = some p ∧ p.last_submission_id_associated = w.current_tick ∧
    p.previously_out_of_memory = false ∧ p.pool.resets = s.generation ∧
    s.result = VkResult.VK_SUCCESS

/-! ## Sample histories -/

/-- A bank as the registry creates it: one fresh record. -/
def sample_bank : DescriptorBank :=
  { info := four_uniform_buffers,
    pools := [{ pool := { create_info :=
                            AllocatePool.create_info sample_device four_uniform_buffers,
                          resets := 0 },
                last_submission_id_associated := 0, previously_out_of_memory := false }] }

/-- An allocator that has committed nothing yet. -/
def fresh_allocator : DescriptorAllocator := { sets := [], committed := 0 }

/-- Tick 1, nothing completed yet, the driver has room. -/
def world_tick_1 : World :=
  { current_tick := 1, LastCompletedFence := fun _ => 0,
    vkAllocateDescriptorSets := fun _ _ => VkResult.VK_SUCCESS,
    vkCreateDescriptorPool := true }

/-- Tick 2, nothing completed yet, the driver has room. -/
def world_tick_2 : World :=
  { current_tick := 2, LastCompletedFence := fun _ => 0,
    vkAllocateDescriptorSets := fun _ _ => VkResult.VK_SUCCESS,
    vkCreateDescriptorPool := true }

/-- Tick 2, tick 1 completed; every pool that has never been reset is full
(the first chunk of sixteen sets used up the sixteen sets of the pool), a pool
that has been reset has room. -/
def world_tick_2_full : World :=
  { current_tick := 2, LastCompletedFence := fun _ => 1,
    vkAllocateDescriptorSets := fun _ resets =>
      if resets = 0 then VkResult.VK_ERROR_OUT_OF_POOL_MEMORY else VkResult.VK_SUCCESS,
    vkCreateDescriptorPool := true }

/-- Tick 3, tick 1 completed. -/
def world_tick_3 : World :=
  { current_tick := 3, LastCompletedFence := fun _ => 1,
    vkAllocateDescriptorSets := fun _ _ => VkResult.VK_SUCCESS,
    vkCreateDescriptorPool := true }

/-- First commit of allocator A at tick 1: materializes its first chunk. -/
def commit_a_1 : CommitResult (Option VkDescriptorSet) :=
  DescriptorAllocator.Commit sample_device world_tick_1 sample_bank fresh_allocator

/-- Second commit of allocator A, at tick 2, right after `commit_a_1`. -/
def commit_a_2 : CommitResult (Option VkDescriptorSet) :=
  DescriptorAllocator.Commit sample_device world_tick_2 commit_a_1.bank commit_a_1.allocator

/-- First commit of a second allocator B on the same bank, at tick 2 after
`commit_a_1`: the pool is full, tick 1 has completed, the pool is reset. -/
def commit_b_1 : CommitResult (Option VkDescriptorSet) :=
  DescriptorAllocator.Commit sample_device world_tick_2_full commit_a_1.bank fresh_allocator

/-- Second commit of allocator A, at tick 3, after `commit_b_1`. -/
def commit_a_after_b : CommitResult (Option VkDescriptorSet) :=
  DescriptorAllocator.Commit sample_device world_tick_3 commit_b_1.bank commit_a_1.allocator

/-- Two `AllocateDescriptors` calls of sixteen sets on `sample_bank`: the first
at tick 1 fills the pool, the second at tick 2 finds it full after tick 1 has
completed. -/
def sample_calls : List Call :=
  [{ world := world_tick_1, count := 16 }, { world := world_tick_2_full, count := 16 }]

/-! ## Specification-side definitions for pool creation and the attempts -/

/-- The pool-size table in the specification's words: in the fixed order of
the six descriptor types, one entry for each type whose count is non-zero and
none for a type whose count is zero; `size` gives the `descriptorCount` of an
entry from the count of its type. -/
def expected_pool_sizes (size : Nat → Nat) (info : DescriptorBankInfo) :
    List VkDescriptorPoolSize :=
  ([(VkDescriptorType.VK_DESCRIPTOR_TYPE_UNIFORM_BUFFER, info.uniform_buffers),
    (VkDescriptorType.VK_DESCRIPTOR_TYPE_STORAGE_BUFFER, info.storage_buffers),
    (VkDescriptorType.VK_DESCRIPTOR_TYPE_UNIFORM_TEXEL_BUFFER, info.texture_buffers),
    (VkDescriptorType.VK_DESCRIPTOR_TYPE_STORAGE_TEXEL_BUFFER, info.image_buffers),
    (VkDescriptorType.VK_DESCRIPTOR_TYPE_COMBINED_IMAGE_SAMPLER, info.textures),
    (VkDescriptorType.VK_DESCRIPTOR_TYPE_STORAGE_IMAGE, info.images)].filter
      (fun e => decide (e.2 ≠ 0))).map
    (fun e => { type := e.1, descriptorCount := size e.2 })

/-- The six counts of a bank info, in the order of the pool-size table. -/
def six_counts (info : DescriptorBankInfo) : List Nat :=
  [info.uniform_buffers, info.storage_buffers, info.texture_buffers, info.image_buffers,
    info.textures, info.images]

/-- The number of non-zero counts among the six. -/
def nonzero_counts (info : DescriptorBankInfo) : Nat :=
  ((six_counts info).filter (fun c => decide (c ≠ 0))).length

/-- A device with sixty-four sets per pool. -/
def device_64 : Device := { sets_per_pool := 64 }

/-- A footprint with `2^26` uniform buffers. -/
def many_uniform_buffers : DescriptorBankInfo :=
  { DescriptorBankInfo.zero with uniform_buffers := 67108864, score := 67108864 }

/-- A footprint with two uniform buffers and three sampled images. -/
def two_uniform_three_textures : DescriptorBankInfo :=
  { DescriptorBankInfo.zero with uniform_buffers := 2, textures := 3, score := 5 }

/-- The guard of the second attempt (lines 133-134) for the record at position
`index`: the record is flagged out of memory and the completed fence has
reached its stamp. -/
def DescriptorAllocator.eligible (w : World) (index : Nat) (pool_data : PoolData) : Bool :=
  pool_data.previously_out_of_memory &&
    decide (w.LastCompletedFence index ≥ pool_data.last_submission_id_associated)

/-- The pool handles of the records, in order: a handle is identified by the
request its pool was created with (resetting a pool keeps its handle). -/
def handles (pools : List PoolData) : List VkDescriptorPoolCreateInfo :=
  pools.map (fun p => p.pool.create_info)

/-- The third attempt is reached: the first attempt returned no sets (it
failed or the bank had no record) and no retry of the second attempt
succeeded. -/
def DescriptorAllocator.reaches_attempt3 (w : World) (count : Nat) (bank : DescriptorBank) :
    Prop :=
  (DescriptorAllocator.Attempt1 w count bank.pools).new_sets = none ∧
  (DescriptorAllocator.Attempt2 w count 0
    (DescriptorAllocator.Attempt1 w count bank.pools).pools).new_sets = none

/-- The record an entry of the driver-call history concerns; a pool creation
concerns no existing record. -/
def Event.record : Event → Option Nat
  | Event.allocate pool _ _ => some pool
  | Event.reset pool _ _ _ => some pool
  | Event.create _ => none

/-- A record of a bank of `four_uniform_buffers` whose pool has never been
reset, with the given stamp and flag. -/
def record_with (last : Nat) (oom : Bool) : PoolData :=
  { pool := { create_info := AllocatePool.create_info sample_device four_uniform_buffers,
              resets := 0 },
    last_submission_id_associated := last, previously_out_of_memory := oom }

/-- A bank with two records: the older one was found full after serving tick 1
and is flagged, the newer one was created then and last served tick 5. -/
def two_record_bank : DescriptorBank :=
  { info := four_uniform_buffers, pools := [record_with 1 true, record_with 5 false] }

/-- Tick 6, tick 3 completed; every pool that has never been reset is full, a
pool that has been reset has room. -/
def world_tick_6 : World :=
  { current_tick := 6, LastCompletedFence := fun _ => 3,
    vkAllocateDescriptorSets := fun _ resets =>
      if resets = 0 then VkResult.VK_ERROR_OUT_OF_POOL_MEMORY else VkResult.VK_SUCCESS,
    vkCreateDescriptorPool := true }

/-- Tick 6, nothing completed; every pool that has never been reset is full
except a pool created now (record 2). -/
def world_tick_6_waiting : World :=
  { current_tick := 6, LastCompletedFence := fun _ => 0,
    vkAllocateDescriptorSets := fun index _ =>
      if index = 2 then VkResult.VK_SUCCESS else VkResult.VK_ERROR_OUT_OF_POOL_MEMORY,
    vkCreateDescriptorPool := true }

/-- Tick 6, nothing completed; every pool is full and the driver cannot
create another one. -/
def world_tick_6_no_pool : World :=
  { current_tick := 6, LastCompletedFence := fun _ => 0,
    vkAllocateDescriptorSets := fun _ _ => VkResult.VK_ERROR_OUT_OF_POOL_MEMORY,
    vkCreateDescriptorPool := false }

/-- A bank with one record that last served tick 1. -/
def one_record_bank : DescriptorBank :=
  { info := four_uniform_buffers, pools := [record_with 1 false] }

/-- Tick 6, nothing completed; the driver refuses every allocation, also on a
pool created now. -/
def world_tick_6_exhausted : World :=
  { current_tick := 6, LastCompletedFence := fun _ => 0,
    vkAllocateDescriptorSets := fun _ _ => VkResult.VK_ERROR_OUT_OF_POOL_MEMORY,
    vkCreateDescriptorPool := true }

/-- What the second attempt leaves of the record at position `index` when it
visits it without success: an eligible record has been reset, has failed the
retry and is flagged again with a zero stamp; any other record is untouched. -/
def swept (w : World) (index : Nat) (q : PoolData) : PoolData :=
  if DescriptorAllocator.eligible w index q then
    { pool := q.pool.Reset, last_submission_id_associated := 0,
      previously_out_of_memory := true }
  else q

/-- The records `pools`, standing at positions `index`, `index + 1`, ..., after
the second attempt has visited all of them without success. -/
def sweep (w : World) : Nat → List PoolData → List PoolData
  | _, [] => []
  | index, q :: rest => swept w index q :: sweep w (index + 1) rest

/-- The driver calls of such a visit, in creation order of the records: for
each eligible record its reset followed by the failed retry. -/
def sweep_calls (w : World) : Nat → List PoolData → List Event
  | _, [] => []
  | index, q :: rest =>
    (if DescriptorAllocator.eligible w index q then
      [Event.reset index true q.last_submission_id_associated (w.LastCompletedFence index),
       Event.allocate index w.current_tick
         (w.vkAllocateDescriptorSets index (q.pool.resets + 1))]
    else []) ++ sweep_calls w (index + 1) rest

/-- The bank `two_record_bank` after the call at tick 6 in which the second
attempt reset record 0 and served the request from it: record 0 is not the
last record and is no longer flagged. -/
def reclaimed_bank : DescriptorBank :=
  (DescriptorAllocator.AllocateDescriptors sample_device world_tick_6 two_record_bank 16).bank

/-- Record 0 of `reclaimed_bank`: reset once, stamped 6, not flagged. -/
def reclaimed_record : PoolData :=
  { pool := (record_with 1 true).pool.Reset, last_submission_id_associated := 6,
    previously_out_of_memory := false }

/-! ## Histories of the registry -/

/-- One operation on the registry: a `DescriptorPool::Bank` lookup, with the
driver's answer to the pool creation it may request, or an
`AllocateDescriptors` call made by an allocator bound to the bank at position
`bank` of `banks` (the reference an earlier lookup handed out). -/
inductive Operation where
  | lookup (created : Bool) (reqs : DescriptorBankInfo)
  | allocate (bank : Nat) (world : World) (count : Nat)

/-- Effect of one operation on the registry.  An `AllocateDescriptors` call
works on the bank it is bound to and leaves it as the call leaves it; the
registry itself is only written by `Bank`.  An allocator is always bound to a
bank the registry holds, so a position outside `banks` changes nothing. -/
def DescriptorPool.perform (device : Device) (self : DescriptorPool) :
    Operation → DescriptorPool
  | Operation.lookup created reqs => (DescriptorPool.Bank device created self reqs).registry
  | Operation.allocate i world count =>
    match self.banks[i]? with
    | some bank =>
      { self with
        banks := self.banks.set i
          (DescriptorAllocator.AllocateDescriptors device world bank count).bank }
    | none => self

/-- The registry after a sequence of operations. -/
def DescriptorPool.exec (device : Device) (self : DescriptorPool) (ops : List Operation) :
    DescriptorPool :=
  ops.foldl (DescriptorPool.perform device) self

/-- The two vectors of the registry run in parallel. -/
def DescriptorPool.parallel (self : DescriptorPool) : Prop :=
  self.bank_infos = self.banks.map (fun b => b.info)

/-- Every bank of the registry holds at least one record. -/
def DescriptorPool.stocked (self : DescriptorPool) : Prop :=
  ∀ b ∈ self.banks, b.pools ≠ []

/-- The driver's answer to the pool creation a lookup may request; an
`AllocateDescriptors` call carries its answers in its own world. -/
def Operation.pool_created : Operation → Bool
  | Operation.lookup created _ => created
  | Operation.allocate _ _ _ => true

/-- Everything stored in `self` is still stored in `later`, at the same
position: the bank infos unchanged, the banks with their info unchanged. -/
def DescriptorPool.extended_by (self later : DescriptorPool) : Prop :=
  (∀ (i : Nat) (info : DescriptorBankInfo),
    self.bank_infos[i]? = some info → later.bank_infos[i]? = some info) ∧
  (∀ (i : Nat) (b : DescriptorBank), self.banks[i]? = some b →
    ∃ b1 : DescriptorBank, later.banks[i]? = some b1 ∧ b1.info = b.info)

/-- Tick 2, nothing completed yet; the pool of record 0 is full, any other
pool has room. -/
def world_tick_2_growing : World :=
  { current_tick := 2, LastCompletedFence := fun _ => 0,
    vkAllocateDescriptorSets := fun index _ =>
      if index = 0 then VkResult.VK_ERROR_OUT_OF_POOL_MEMORY else VkResult.VK_SUCCESS,
    vkCreateDescriptorPool := true }

/-- A history of the registry: two lookups that create two banks, then two
allocations on the first bank; the first fills its pool at tick 1, the second
finds it full before tick 1 has completed and is served from a new pool. -/
def sample_operations : List Operation :=
  [Operation.lookup true four_uniform_buffers,
   Operation.lookup true ten_image_buffers,
   Operation.allocate 0 world_tick_1 16,
   Operation.allocate 0 world_tick_2_growing 16]

/-- A history of the registry: one lookup on the empty registry, for which the
driver fails to create the pool. -/
def failed_lookup_operations : List Operation :=
  [Operation.lookup false four_uniform_buffers]

/-! ## Bank infos and the registry: lemmas -/

theorem AllocatePool_created (device : Device) (bank : DescriptorBank) :
    AllocatePool device true bank =
      some { info := bank.info,
             pools := bank.pools ++
               [{ pool := { create_info := AllocatePool.create_info device bank.info,
                            resets := 0 },
                  last_submission_id_associated := 0,
                  previously_out_of_memory := false }] } := rfl

theorem AllocatePool_failed (device : Device) (bank : DescriptorBank) :
    AllocatePool device false bank = none := rfl

theorem Bank_hit_eq (device : Device) (created : Bool) (self : DescriptorPool)
    (reqs : DescriptorBankInfo)
    (h : self.bank_infos.findIdx (DescriptorPool.is_match reqs) ≠ self.bank_infos.length) :
    DescriptorPool.Bank device created self reqs =
      { index := self.bank_infos.findIdx (DescriptorPool.is_match reqs),
        registry := self, calls := [], thrown := none } := by
  simp [DescriptorPool.Bank, h]

theorem Bank_miss_eq (device : Device) (self : DescriptorPool) (reqs : DescriptorBankInfo)
    (h : self.bank_infos.findIdx (DescriptorPool.is_match reqs) = self.bank_infos.length) :
    DescriptorPool.Bank device true self reqs =
      { index := self.banks.length,
        registry :=
          { bank_infos := self.bank_infos ++ [reqs],
            banks := self.banks ++
              [{ info := reqs,
                 pools := [{ pool := { create_info := AllocatePool.create_info device reqs,
                                       resets := 0 },
                             last_submission_id_associated := 0,
                             previously_out_of_memory := false }] }] },
        calls := [Event.create (AllocatePool.create_info device reqs)],
        thrown := none } := by
  simp [DescriptorPool.Bank, h, AllocatePool_created]

theorem Bank_miss_failed_eq (device : Device) (self : DescriptorPool)
    (reqs : DescriptorBankInfo)
    (h : self.bank_infos.findIdx (DescriptorPool.is_match reqs) = self.bank_infos.length) :
    DescriptorPool.Bank device false self reqs =
      { index := self.banks.length,
        registry :=
          { bank_infos := self.bank_infos ++ [reqs],
            banks := self.banks ++ [{ info := reqs, pools := [] }] },
        calls := [Event.create (AllocatePool.create_info device reqs)],
        thrown := some vk.Exception.creation } := by
  simp [DescriptorPool.Bank, h, AllocatePool_failed]

/-- Claim C1, evaluated on the code: `IsSuperset` accepts a subset that asks
for one storage image although `self` has none (so `self` does not cover it
count by count), and it rejects a subset equal to `self`, which `self` covers,
when `self` has more storage texel buffers than storage images.  The sixth comparison reads
`subset.image_buffers` where the claim needs `subset.images`. -/
theorem IsSuperset_sixth_comparison_reads_image_buffers :
    DescriptorBankInfo.zero.IsSuperset one_image = true ∧
    ¬ covers DescriptorBankInfo.zero one_image ∧
    one_image_buffer.IsSuperset one_image_buffer = false ∧
    covers one_image_buffer one_image_buffer := by
  decide

/-- Claim C2, evaluated on the code: the footprint with one storage texel
buffer has its score equal to the sum of its counts, yet compared with itself
`IsSuperset` is false and the registry test does not match. -/
theorem IsSuperset_not_reflexive :
    one_image_buffer.score =
      ((one_image_buffer.uniform_buffers + one_image_buffer.storage_buffers +
        one_image_buffer.texture_buffers + one_image_buffer.image_buffers +
        one_image_buffer.textures + one_image_buffer.images : Nat) : Int) ∧
    one_image_buffer.IsSuperset one_image_buffer = false ∧
    DescriptorPool.is_match one_image_buffer one_image_buffer = false := by
  decide

/-- Claim C6, evaluated on the code: on the empty registry two consecutive
lookups of the footprint with one storage texel buffer return two different
banks (positions 0 and 1); the second lookup appends a bank info and a bank
and creates a pool. -/
theorem Bank_twice_creates_two_banks :
    (DescriptorPool.Bank sample_device true empty_registry one_image_buffer).index = 0 ∧
    (DescriptorPool.Bank sample_device true
      (DescriptorPool.Bank sample_device true empty_registry one_image_buffer).registry
      one_image_buffer).index = 1 ∧
    (DescriptorPool.Bank sample_device true
      (DescriptorPool.Bank sample_device true empty_registry one_image_buffer).registry
      one_image_buffer).registry.bank_infos = [one_image_buffer, one_image_buffer] ∧
    (DescriptorPool.Bank sample_device true
      (DescriptorPool.Bank sample_device true empty_registry one_image_buffer).registry
      one_image_buffer).registry.banks.length = 2 ∧
    (DescriptorPool.Bank sample_device true
      (DescriptorPool.Bank sample_device true empty_registry one_image_buffer).registry
      one_image_buffer).calls =
        [Event.create (AllocatePool.create_info sample_device one_image_buffer)] := by
  decide

/-- Claim C9, evaluated on the code: the registry holds one bank whose info
has ten storage texel buffers and score 10; a request of score 11 (and also a
request equal to the stored info) has each of its six counts at most the
stored one and a score less than 3 away, yet `Bank` finds no match and appends
a second bank. -/
theorem Bank_subset_request_not_reused :
    registry_score_10.bank_infos = [ten_image_buffers] ∧
    covers ten_image_buffers ten_image_buffers_score_11 ∧
    |ten_image_buffers.score - ten_image_buffers_score_11.score| < 3 ∧
    (DescriptorPool.Bank sample_device true registry_score_10
      ten_image_buffers_score_11).index = 1 ∧
    (DescriptorPool.Bank sample_device true registry_score_10
      ten_image_buffers_score_11).registry.banks.length = 2 ∧
    (DescriptorPool.Bank sample_device true registry_score_10 ten_image_buffers).index = 1 ∧
    (DescriptorPool.Bank sample_device true registry_score_10
      ten_image_buffers).registry.banks.length = 2 := by
  decide

/-! ## `MakeBankInfo`: lemmas -/

theorem foldl_add_mod {α : Type} (g : α → Nat) (l : List α) (a : Nat) (ha : a < U32_SIZE) :
    l.foldl (fun c x => (c + g x) % U32_SIZE) a = (a + (l.map g).sum) % U32_SIZE := by
  induction l generalizing a with
  | nil => simp [Nat.mod_eq_of_lt ha]
  | cons x xs ih =>
    have hlt : (a + g x) % U32_SIZE < U32_SIZE := Nat.mod_lt _ (by decide)
    simp only [List.foldl_cons, List.map_cons, List.sum_cons]
    rw [ih _ hlt, Nat.mod_add_mod, Nat.add_assoc]

theorem Accumulate_eq (l : List Descriptor) :
    Accumulate l = (l.map Descriptor.count).sum % U32_SIZE := by
  have h := foldl_add_mod Descriptor.count l 0 (by decide)
  simpa [Accumulate] using h

theorem sum_map_mod {α : Type} (g : α → Nat) (l : List α) :
    (l.map (fun x => g x % U32_SIZE)).sum % U32_SIZE = (l.map g).sum % U32_SIZE := by
  induction l with
  | nil => rfl
  | cons x xs ih =>
    simp only [List.map_cons, List.sum_cons]
    rw [Nat.add_mod, ih, Nat.mod_mod, ← Nat.add_mod]

theorem foldl_step_fields (infos : List ShaderInfo) (bank : DescriptorBankInfo) :
    (infos.foldl MakeBankInfo.step bank).uniform_buffers =
      infos.foldl (fun c i => (c + Accumulate i.constant_buffer_descriptors) % U32_SIZE)
        bank.uniform_buffers ∧
    (infos.foldl MakeBankInfo.step bank).storage_buffers =
      infos.foldl (fun c i => (c + Accumulate i.storage_buffers_descriptors) % U32_SIZE)
        bank.storage_buffers ∧
    (infos.foldl MakeBankInfo.step bank).texture_buffers =
      infos.foldl (fun c i => (c + Accumulate i.texture_buffer_descriptors) % U32_SIZE)
        bank.texture_buffers ∧
    (infos.foldl MakeBankInfo.step bank).image_buffers =
      infos.foldl (fun c i => (c + Accumulate i.image_buffer_descriptors) % U32_SIZE)
        bank.image_buffers ∧
    (infos.foldl MakeBankInfo.step bank).textures =
      infos.foldl (fun c i => (c + Accumulate i.texture_descriptors) % U32_SIZE)
        bank.textures ∧
    (infos.foldl MakeBankInfo.step bank).images =
      infos.foldl (fun c i => (c + Accumulate i.image_descriptors) % U32_SIZE)
        bank.images := by
  induction infos generalizing bank with
  | nil => simp
  | cons i is ih =>
    simp only [List.foldl_cons]
    have h := ih (MakeBankInfo.step bank i)
    simpa [MakeBankInfo.step] using h

theorem fold_field_eq (sel : ShaderInfo → List Descriptor) (infos : List ShaderInfo) :
    infos.foldl (fun c i => (c + Accumulate (sel i)) % U32_SIZE) 0 =
      count_total sel infos % U32_SIZE := by
  rw [foldl_add_mod (fun i => Accumulate (sel i)) infos 0 (by decide)]
  simp only [Nat.zero_add, count_total]
  have h := sum_map_mod (fun i => ((sel i).map Descriptor.count).sum) infos
  rw [← h]
  congr 3
  funext i
  exact Accumulate_eq (sel i)

theorem toS32_mod_congr (x y : Nat) (h : x % U32_SIZE = y % U32_SIZE) : toS32 x = toS32 y := by
  simp [toS32, h]

theorem toS32_small (x : Nat) (h : x < 2147483648) : toS32 x = (x : Int) := by
  have hx : x % U32_SIZE = x := Nat.mod_eq_of_lt (by simp only [U32_SIZE]; omega)
  simp [toS32, hx, h]

/-! ## Claim about `MakeBankInfo` -/

/-- Claim C10 fails as stated: for one report with two constant buffer
descriptors of `2^31` entries each, the sum of the descriptor counts is
`2^32`, while `MakeBankInfo` returns `uniform_buffers = 0` and `score = 0`. -/
theorem MakeBankInfo_wraps :
    count_total ShaderInfo.constant_buffer_descriptors [huge_report] = 4294967296 ∧
    (MakeBankInfo [huge_report]).uniform_buffers = 0 ∧
    (MakeBankInfo [huge_report]).score = 0 ∧
    (MakeBankInfo [huge_report]).uniform_buffers ≠
      count_total ShaderInfo.constant_buffer_descriptors [huge_report] := by
  decide

/-- Claim C10 as amended: for every sequence of shader reports each of the six
counts returned by `MakeBankInfo` is the sum of the descriptor counts of its
type over all reports, reduced modulo `2^32`, and the score is the grand total
reduced modulo `2^32` and read as a signed 32-bit value; whenever the grand
total is below `2^31` the six counts are the exact sums and the score is the
exact sum of the six counts; for the empty sequence everything is zero. -/
theorem MakeBankInfo_counts (infos : List ShaderInfo) :
    ((MakeBankInfo infos).uniform_buffers =
        count_total ShaderInfo.constant_buffer_descriptors infos % U32_SIZE ∧
      (MakeBankInfo infos).storage_buffers =
        count_total ShaderInfo.storage_buffers_descriptors infos % U32_SIZE ∧
      (MakeBankInfo infos).texture_buffers =
        count_total ShaderInfo.texture_buffer_descriptors infos % U32_SIZE ∧
      (MakeBankInfo infos).image_buffers =
        count_total ShaderInfo.image_buffer_descriptors infos % U32_SIZE ∧
      (MakeBankInfo infos).textures =
        count_total ShaderInfo.texture_descriptors infos % U32_SIZE ∧
      (MakeBankInfo infos).images =
        count_total ShaderInfo.image_descriptors infos % U32_SIZE ∧
      (MakeBankInfo infos).score = toS32 (grand_total infos)) ∧
    (grand_total infos < 2147483648 →
      (MakeBankInfo infos).uniform_buffers =
        count_total ShaderInfo.constant_buffer_descriptors infos ∧
      (MakeBankInfo infos).storage_buffers =
        count_total ShaderInfo.storage_buffers_descriptors infos ∧
      (MakeBankInfo infos).texture_buffers =
        count_total ShaderInfo.texture_buffer_descriptors infos ∧
      (MakeBankInfo infos).image_buffers =
        count_total ShaderInfo.image_buffer_descriptors infos ∧
      (MakeBankInfo infos).textures = count_total ShaderInfo.texture_descriptors infos ∧
      (MakeBankInfo infos).images = count_total ShaderInfo.image_descriptors infos ∧
      (MakeBankInfo infos).score =
        (((MakeBankInfo infos).uniform_buffers + (MakeBankInfo infos).storage_buffers +
          (MakeBankInfo infos).texture_buffers + (MakeBankInfo infos).image_buffers +
          (MakeBankInfo infos).textures + (MakeBankInfo infos).images : Nat) : Int)) ∧
    MakeBankInfo [] = DescriptorBankInfo.zero := by
  obtain ⟨h1, h2, h3, h4, h5, h6⟩ := foldl_step_fields infos DescriptorBankInfo.zero
  simp only [DescriptorBankInfo.zero] at h1 h2 h3 h4 h5 h6
  rw [fold_field_eq] at h1 h2 h3 h4 h5 h6
  have e1 : (MakeBankInfo infos).uniform_buffers =
      count_total ShaderInfo.constant_buffer_descriptors infos % U32_SIZE := h1
  have e2 : (MakeBankInfo infos).storage_buffers =
      count_total ShaderInfo.storage_buffers_descriptors infos % U32_SIZE := h2
  have e3 : (MakeBankInfo infos).texture_buffers =
      count_total ShaderInfo.texture_buffer_descriptors infos % U32_SIZE := h3
  have e4 : (MakeBankInfo infos).image_buffers =
      count_total ShaderInfo.image_buffer_descriptors infos % U32_SIZE := h4
  have e5 : (MakeBankInfo infos).textures =
      count_total ShaderInfo.texture_descriptors infos % U32_SIZE := h5
  have e6 : (MakeBankInfo infos).images =
      count_total ShaderInfo.image_descriptors infos % U32_SIZE := h6
  have es : (MakeBankInfo infos).score =
      toS32 ((MakeBankInfo infos).uniform_buffers + (MakeBankInfo infos).storage_buffers +
        (MakeBankInfo infos).texture_buffers + (MakeBankInfo infos).image_buffers +
        (MakeBankInfo infos).textures + (MakeBankInfo infos).images) := rfl
  have hs : (MakeBankInfo infos).score = toS32 (grand_total infos) := by
    rw [es]
    apply toS32_mod_congr
    rw [e1, e2, e3, e4, e5, e6]
    simp only [grand_total, U32_SIZE]
    omega
  refine ⟨⟨e1, e2, e3, e4, e5, e6, hs⟩, ?_, by decide⟩
  intro hsmall
  have hg : grand_total infos < 2147483648 := hsmall
  simp only [grand_total] at hsmall
  have m1 := Nat.mod_eq_of_lt (show count_total ShaderInfo.constant_buffer_descriptors infos
    < U32_SIZE by simp only [U32_SIZE]; omega)
  have m2 := Nat.mod_eq_of_lt (show count_total ShaderInfo.storage_buffers_descriptors infos
    < U32_SIZE by simp only [U32_SIZE]; omega)
  have m3 := Nat.mod_eq_of_lt (show count_total ShaderInfo.texture_buffer_descriptors infos
    < U32_SIZE by simp only [U32_SIZE]; omega)
  have m4 := Nat.mod_eq_of_lt (show count_total ShaderInfo.image_buffer_descriptors infos
    < U32_SIZE by simp only [U32_SIZE]; omega)
  have m5 := Nat.mod_eq_of_lt (show count_total ShaderInfo.texture_descriptors infos
    < U32_SIZE by simp only [U32_SIZE]; omega)
  have m6 := Nat.mod_eq_of_lt (show count_total ShaderInfo.image_descriptors infos
    < U32_SIZE by simp only [U32_SIZE]; omega)
  rw [m1] at e1
  rw [m2] at e2
  rw [m3] at e3
  rw [m4] at e4
  rw [m5] at e5
  rw [m6] at e6
  refine ⟨e1, e2, e3, e4, e5, e6, ?_⟩
  rw [hs, toS32_small _ hg, e1, e2, e3, e4, e5, e6]
  rfl

/-- Witness of `MakeBankInfo_counts`: two copies of a report with three
constant buffers and two textures of two entries give six uniform buffers,
eight textures and score 14. -/
theorem MakeBankInfo_counts_witness :
    grand_total [small_report, small_report] < 2147483648 ∧
    (MakeBankInfo [small_report, small_report]).uniform_buffers =
      count_total ShaderInfo.constant_buffer_descriptors [small_report, small_report] ∧
    (MakeBankInfo [small_report, small_report]).score =
      (((MakeBankInfo [small_report, small_report]).uniform_buffers +
        (MakeBankInfo [small_report, small_report]).storage_buffers +
        (MakeBankInfo [small_report, small_report]).texture_buffers +
        (MakeBankInfo [small_report, small_report]).image_buffers +
        (MakeBankInfo [small_report, small_report]).textures +
        (MakeBankInfo [small_report, small_report]).images : Nat) : Int) :=
  have h := (MakeBankInfo_counts [small_report, small_report]).2.1 (by decide)
  ⟨by decide, h.1, h.2.2.2.2.2.2⟩

/-! ## Histories: lemmas -/

theorem last_stamp_append (i : Nat) (h : List Event) (e : Event) :
    last_stamp i (h ++ [e]) = stamp_step i (last_stamp i h) e := by
  simp [last_stamp, List.foldl_append]

theorem getElem?_replace_ne {α : Type} (done rest : List α) (p q : α) (i : Nat)
    (hi : i ≠ done.length) : (done ++ q :: rest)[i]? = (done ++ p :: rest)[i]? := by
  rcases Nat.lt_or_gt_of_ne hi with h | h
  · simp [List.getElem?_append_left h]
  · rw [List.getElem?_append_right (Nat.le_of_lt h),
      List.getElem?_append_right (Nat.le_of_lt h)]
    obtain ⟨k, hk⟩ : ∃ k, i - done.length = k + 1 := ⟨i - done.length - 1, by omega⟩
    rw [hk]
    simp

theorem getElem?_replace_eq {α : Type} (done rest : List α) (q : α) :
    (done ++ q :: rest)[done.length]? = some q := by
  rw [List.getElem?_append_right (Nat.le_refl _)]
  simp

theorem IsOutOfPoolMemory_eq_false (s : vk.DescriptorSets) :
    s.IsOutOfPoolMemory = false ↔ s.result = VkResult.VK_SUCCESS := by
  cases s with
  | mk result pool generation size =>
    cases result <;> simp [vk.DescriptorSets.IsOutOfPoolMemory]

theorem resets_safe_append (h : List Event) (e : Event) (hs : resets_safe h)
    (he : ∀ i oom last c, e = Event.reset i oom last c →
      oom = true ∧ (last_stamp i h = none ∨ ∃ t, last_stamp i h = some t ∧ c ≥ t)) :
    resets_safe (h ++ [e]) := by
  intro k i oom last c hk
  rcases Nat.lt_trichotomy k h.length with hlt | heq | hgt
  · rw [List.getElem?_append_left hlt] at hk
    rw [List.take_append_of_le_length (Nat.le_of_lt hlt)]
    exact hs k i oom last c hk
  · subst heq
    simp at hk
    rw [List.take_left']
    · exact he i oom last c hk
    · rfl
  · have hnone : (h ++ [e])[k]? = none := by
      apply List.getElem?_eq_none
      simp
      omega
    rw [hnone] at hk
    cases hk

theorem stamps_recorded_allocate (h : List Event) (done rest : List PoolData) (p q : PoolData)
    (t : Nat) (result : VkResult) (hs : stamps_recorded h (done ++ p :: rest))
    (hok : result = VkResult.VK_SUCCESS → q.last_submission_id_associated = t)
    (hfail : result ≠ VkResult.VK_SUCCESS →
      q.last_submission_id_associated = p.last_submission_id_associated) :
    stamps_recorded (h ++ [Event.allocate done.length t result]) (done ++ q :: rest) := by
  intro i t1 hst
  rw [last_stamp_append] at hst
  simp only [stamp_step] at hst
  by_cases hi : i = done.length
  · subst hi
    refine ⟨q, getElem?_replace_eq done rest q, ?_⟩
    by_cases hr : result = VkResult.VK_SUCCESS
    · simp [hr] at hst
      rw [hok hr, hst]
    · simp [hr] at hst
      obtain ⟨p0, hp0, hl⟩ := hs _ _ hst
      rw [getElem?_replace_eq] at hp0
      injection hp0 with hp0
      rw [hfail hr, hp0, hl]
  · have hne : ¬ (done.length = i ∧ result = VkResult.VK_SUCCESS) := fun hc => hi hc.1.symm
    simp only [hne, if_false] at hst
    obtain ⟨p0, hp0, hl⟩ := hs _ _ hst
    exact ⟨p0, by rw [getElem?_replace_ne done rest p q i hi]; exact hp0, hl⟩

theorem stamps_recorded_reset (h : List Event) (done rest : List PoolData) (p q : PoolData)
    (oom : Bool) (last c : Nat) (hs : stamps_recorded h (done ++ p :: rest)) :
    stamps_recorded (h ++ [Event.reset done.length oom last c]) (done ++ q :: rest) := by
  intro i t1 hst
  rw [last_stamp_append] at hst
  simp only [stamp_step] at hst
  by_cases hi : i = done.length
  · subst hi
    simp at hst
  · have hne : ¬ (done.length = i) := fun hc => hi hc.symm
    simp only [hne, if_false] at hst
    obtain ⟨p0, hp0, hl⟩ := hs _ _ hst
    exact ⟨p0, by rw [getElem?_replace_ne done rest p q i hi]; exact hp0, hl⟩

theorem stamps_recorded_create (h : List Event) (pools : List PoolData) (q : PoolData)
    (info : VkDescriptorPoolCreateInfo) (hs : stamps_recorded h pools) :
    stamps_recorded (h ++ [Event.create info]) (pools ++ [q]) := by
  intro i t1 hst
  rw [last_stamp_append] at hst
  simp only [stamp_step] at hst
  obtain ⟨p0, hp0, hl⟩ := hs _ _ hst
  have hlt : i < pools.length := by
    rcases Nat.lt_or_ge i pools.length with h1 | h1
    · exact h1
    · rw [List.getElem?_eq_none h1] at hp0
      cases hp0
  exact ⟨p0, by rw [List.getElem?_append_left hlt]; exact hp0, hl⟩

theorem consistent_allocate (h : List Event) (done rest : List PoolData) (p q : PoolData)
    (t : Nat) (result : VkResult)
    (hs : stamps_recorded h (done ++ p :: rest) ∧ resets_safe h)
    (hok : result = VkResult.VK_SUCCESS → q.last_submission_id_associated = t)
    (hfail : result ≠ VkResult.VK_SUCCESS →
      q.last_submission_id_associated = p.last_submission_id_associated) :
    stamps_recorded (h ++ [Event.allocate done.length t result]) (done ++ q :: rest) ∧
      resets_safe (h ++ [Event.allocate done.length t result]) :=
  ⟨stamps_recorded_allocate h done rest p q t result hs.1 hok hfail,
    resets_safe_append h _ hs.2 (by intro i oom last c he; cases he)⟩

theorem consistent_reset (h : List Event) (done rest : List PoolData) (p q : PoolData)
    (c : Nat) (hs : stamps_recorded h (done ++ p :: rest) ∧ resets_safe h)
    (hoom : p.previously_out_of_memory = true)
    (hc : c ≥ p.last_submission_id_associated) :
    stamps_recorded
        (h ++ [Event.reset done.length p.previously_out_of_memory
          p.last_submission_id_associated c]) (done ++ q :: rest) ∧
      resets_safe
        (h ++ [Event.reset done.length p.previously_out_of_memory
          p.last_submission_id_associated c]) := by
  refine ⟨stamps_recorded_reset h done rest p q _ _ c hs.1, resets_safe_append h _ hs.2 ?_⟩
  intro i oom last c1 he
  injection he with h1 h2 h3 h4
  subst h1 h2 h3 h4
  refine ⟨hoom, ?_⟩
  cases hst : last_stamp done.length h with
  | none => exact Or.inl rfl
  | some t =>
    right
    obtain ⟨p0, hp0, hl⟩ := hs.1 _ _ hst
    rw [getElem?_replace_eq] at hp0
    injection hp0 with hp0
    exact ⟨t, rfl, by rw [← hl, ← hp0]; exact hc⟩

theorem consistent_create (h : List Event) (pools : List PoolData) (q : PoolData)
    (info : VkDescriptorPoolCreateInfo) (hs : stamps_recorded h pools ∧ resets_safe h) :
    stamps_recorded (h ++ [Event.create info]) (pools ++ [q]) ∧
      resets_safe (h ++ [Event.create info]) :=
  ⟨stamps_recorded_create h pools q info hs.1,
    resets_safe_append h _ hs.2 (by intro i oom last c he; cases he)⟩

theorem Attempt1_consistent (w : World) (count : Nat) (h : List Event) (pools : List PoolData)
    (hs : stamps_recorded h pools ∧ resets_safe h) :
    stamps_recorded (h ++ (DescriptorAllocator.Attempt1 w count pools).calls)
        (DescriptorAllocator.Attempt1 w count pools).pools ∧
      resets_safe (h ++ (DescriptorAllocator.Attempt1 w count pools).calls) := by
  unfold DescriptorAllocator.Attempt1
  split
  · simpa using hs
  · rename_i last hgl
    obtain ⟨done, rfl⟩ := List.getLast?_eq_some_iff.1 hgl
    simp only [List.dropLast_concat, List.length_append, List.length_singleton,
      Nat.add_sub_cancel]
    split
    · rename_i hok
      have hres : (last.pool.Allocate w done.length count).result = VkResult.VK_SUCCESS :=
        (IsOutOfPoolMemory_eq_false _).1 (by simpa using hok)
      exact consistent_allocate h done [] last _ w.current_tick _ hs (fun _ => rfl)
        (fun hne => absurd hres hne)
    · rename_i hok
      have hres : (last.pool.Allocate w done.length count).result ≠ VkResult.VK_SUCCESS := by
        intro hc
        exact hok (by simp [(IsOutOfPoolMemory_eq_false _).2 hc])
      exact consistent_allocate h done [] last _ w.current_tick _ hs
        (fun heq => absurd heq hres) (fun _ => rfl)

theorem Attempt2_consistent (w : World) (count : Nat) (rest : List PoolData) :
    ∀ (done : List PoolData) (h : List Event),
      stamps_recorded h (done ++ rest) ∧ resets_safe h →
      stamps_recorded (h ++ (DescriptorAllocator.Attempt2 w count done.length rest).calls)
          (done ++ (DescriptorAllocator.Attempt2 w count done.length rest).pools) ∧
        resets_safe (h ++ (DescriptorAllocator.Attempt2 w count done.length rest).calls) := by
  induction rest with
  | nil =>
    intro done h hs
    simpa [DescriptorAllocator.Attempt2] using hs
  | cons p rest ih =>
    intro done h hs
    by_cases hguard : (p.previously_out_of_memory &&
        decide (w.LastCompletedFence done.length ≥ p.last_submission_id_associated)) = true
    · have hg := hguard
      simp only [Bool.and_eq_true, decide_eq_true_eq] at hg
      have h1 := consistent_reset h done rest p (PoolData.mk p.pool.Reset 0 false)
        (w.LastCompletedFence done.length) hs hg.1 hg.2
      by_cases hok : (p.pool.Reset.Allocate w done.length count).IsOutOfPoolMemory = false
      · have hres := (IsOutOfPoolMemory_eq_false _).1 hok
        have h2 := consistent_allocate _ done rest _
          (PoolData.mk p.pool.Reset w.current_tick false) w.current_tick _ h1 (fun _ => rfl)
          (fun hne => absurd hres hne)
        simpa [DescriptorAllocator.Attempt2, hguard, hok] using h2
      · have hres : (p.pool.Reset.Allocate w done.length count).result ≠
            VkResult.VK_SUCCESS := fun hc => hok ((IsOutOfPoolMemory_eq_false _).2 hc)
        have h2 := consistent_allocate _ done rest _
          (PoolData.mk p.pool.Reset 0 true) w.current_tick _ h1
          (fun heq => absurd heq hres) (fun _ => rfl)
        have h3 := ih (done ++ [PoolData.mk p.pool.Reset 0 true]) _ (by simpa using h2)
        simp only [Bool.not_eq_false] at hok
        simpa [DescriptorAllocator.Attempt2, hguard, hok] using h3
    · have h3 := ih (done ++ [p]) h (by simpa using hs)
      simpa [DescriptorAllocator.Attempt2, hguard] using h3

theorem Attempt3_not_created (device : Device) (w : World) (count : Nat) (bank : DescriptorBank)
    (hc : w.vkCreateDescriptorPool = false) :
    DescriptorAllocator.Attempt3 device w count bank =
      { bank := bank,
        calls := [Event.create (AllocatePool.create_info device bank.info)],
        ret := Except.error vk.Exception.creation } := by
  unfold DescriptorAllocator.Attempt3
  split
  · rfl
  · rename_i b hb
    rw [hc] at hb
    cases hb

theorem Attempt3_created (device : Device) (w : World) (count : Nat) (bank : DescriptorBank)
    (hc : w.vkCreateDescriptorPool = true) :
    DescriptorAllocator.Attempt3 device w count bank =
      if !((vk.DescriptorPool.mk (AllocatePool.create_info device bank.info) 0).Allocate w
          bank.pools.length count).IsOutOfPoolMemory then
        { bank := { info := bank.info,
                    pools := bank.pools ++
                      [{ pool := { create_info := AllocatePool.create_info device bank.info,
                                   resets := 0 },
                         last_submission_id_associated := w.current_tick,
                         previously_out_of_memory := false }] },
          calls := [Event.create (AllocatePool.create_info device bank.info),
                    Event.allocate bank.pools.length w.current_tick
                      (w.vkAllocateDescriptorSets bank.pools.length 0)],
          ret := Except.ok ((vk.DescriptorPool.mk (AllocatePool.create_info device bank.info)
            0).Allocate w bank.pools.length count) }
      else
        { bank := { info := bank.info,
                    pools := bank.pools ++
                      [{ pool := { create_info := AllocatePool.create_info device bank.info,
                                   resets := 0 },
                         last_submission_id_associated := 0,
                         previously_out_of_memory := false }] },
          calls := [Event.create (AllocatePool.create_info device bank.info),
                    Event.allocate bank.pools.length w.current_tick
                      (w.vkAllocateDescriptorSets bank.pools.length 0)],
          ret := Except.error (vk.Exception.allocation
            (w.vkAllocateDescriptorSets bank.pools.length 0)) } := by
  unfold DescriptorAllocator.Attempt3
  split
  · rename_i hb
    rw [hc] at hb
    cases hb
  · rename_i b hb
    rw [hc] at hb
    rw [AllocatePool_created] at hb
    injection hb with hb
    subst hb
    simp [vk.DescriptorPool.Allocate, vk.DescriptorSets.GetResult]

theorem consistent_create_failed (h : List Event) (pools : List PoolData)
    (info : VkDescriptorPoolCreateInfo) (hs : stamps_recorded h pools ∧ resets_safe h) :
    stamps_recorded (h ++ [Event.create info]) pools ∧
      resets_safe (h ++ [Event.create info]) := by
  refine ⟨?_, resets_safe_append h _ hs.2 (by intro i oom last c he; cases he)⟩
  intro i t1 hst
  rw [last_stamp_append] at hst
  simp only [stamp_step] at hst
  exact hs.1 _ _ hst

theorem Attempt3_consistent (device : Device) (w : World) (count : Nat) (h : List Event)
    (bank : DescriptorBank) (hs : stamps_recorded h bank.pools ∧ resets_safe h) :
    stamps_recorded (h ++ (DescriptorAllocator.Attempt3 device w count bank).calls)
        (DescriptorAllocator.Attempt3 device w count bank).bank.pools ∧
      resets_safe (h ++ (DescriptorAllocator.Attempt3 device w count bank).calls) := by
  cases hc : w.vkCreateDescriptorPool with
  | false =>
    rw [Attempt3_not_created device w count bank hc]
    exact consistent_create_failed h bank.pools _ hs
  | true =>
    have h1 := consistent_create h bank.pools
      { pool := { create_info := AllocatePool.create_info device bank.info, resets := 0 },
        last_submission_id_associated := 0, previously_out_of_memory := false }
      (AllocatePool.create_info device bank.info) hs
    rw [Attempt3_created device w count bank hc]
    split
    · rename_i hok
      have hres := (IsOutOfPoolMemory_eq_false _).1 (by simpa using hok)
      have h2 := consistent_allocate _ bank.pools [] _
        { pool := { create_info := AllocatePool.create_info device bank.info, resets := 0 },
          last_submission_id_associated := w.current_tick, previously_out_of_memory := false }
        w.current_tick _ h1 (fun _ => rfl) (fun hne => absurd hres hne)
      simpa [vk.DescriptorPool.Allocate] using h2
    · rename_i hok
      have hres : ((vk.DescriptorPool.mk (AllocatePool.create_info device bank.info) 0).Allocate
          w bank.pools.length count).result ≠ VkResult.VK_SUCCESS := by
        intro hc
        exact hok (by simp [(IsOutOfPoolMemory_eq_false _).2 hc])
      have h2 := consistent_allocate _ bank.pools [] _
        { pool := { create_info := AllocatePool.create_info device bank.info, resets := 0 },
          last_submission_id_associated := 0, previously_out_of_memory := false }
        w.current_tick _ h1 (fun heq => absurd heq hres) (fun _ => rfl)
      simpa [vk.DescriptorPool.Allocate] using h2

theorem AllocateDescriptors_consistent (device : Device) (w : World) (count : Nat)
    (h : List Event) (bank : DescriptorBank)
    (hs : stamps_recorded h bank.pools ∧ resets_safe h) :
    stamps_recorded
        (h ++ (DescriptorAllocator.AllocateDescriptors device w bank count).calls)
        (DescriptorAllocator.AllocateDescriptors device w bank count).bank.pools ∧
      resets_safe (h ++ (DescriptorAllocator.AllocateDescriptors device w bank count).calls) := by
  have h1 := Attempt1_consistent w count h bank.pools hs
  have h2 := Attempt2_consistent w count (DescriptorAllocator.Attempt1 w count bank.pools).pools
    [] _ (by simpa using h1)
  simp only [List.nil_append, List.length_nil] at h2
  have h3 := Attempt3_consistent device w count _
    { bank with pools := (DescriptorAllocator.Attempt2 w count 0
        (DescriptorAllocator.Attempt1 w count bank.pools).pools).pools } h2
  cases e1 : (DescriptorAllocator.Attempt1 w count bank.pools).new_sets with
  | some s1 => simpa [DescriptorAllocator.AllocateDescriptors, e1] using h1
  | none =>
    cases e2 : (DescriptorAllocator.Attempt2 w count 0
        (DescriptorAllocator.Attempt1 w count bank.pools).pools).new_sets with
    | some s2 => simpa [DescriptorAllocator.AllocateDescriptors, e1, e2] using h2
    | none => simpa [DescriptorAllocator.AllocateDescriptors, e1, e2] using h3

theorem run_consistent (device : Device) (calls : List Call) :
    ∀ (bank : DescriptorBank) (h : List Event),
      stamps_recorded h bank.pools ∧ resets_safe h →
      stamps_recorded (h ++ (run device bank calls).2) (run device bank calls).1.pools ∧
        resets_safe (h ++ (run device bank calls).2) := by
  induction calls with
  | nil =>
    intro bank h hs
    simpa [run] using hs
  | cons c rest ih =>
    intro bank h hs
    have h1 := AllocateDescriptors_consistent device c.world c.count h bank hs
    have h2 := ih _ _ h1
    simpa [run] using h2

/-! ## Where returned sets come from: lemmas -/

theorem Attempt1_sets (w : World) (count : Nat) (pools : List PoolData)
    (s : vk.DescriptorSets) (h : (DescriptorAllocator.Attempt1 w count pools).new_sets = some s) :
    drawn_from w (DescriptorAllocator.Attempt1 w count pools).pools s := by
  unfold DescriptorAllocator.Attempt1 at h ⊢
  split at h
  · simp at h
  · rename_i last hgl
    obtain ⟨done, rfl⟩ := List.getLast?_eq_some_iff.1 hgl
    simp only [hgl, List.dropLast_concat, List.length_append, List.length_singleton,
      Nat.add_sub_cancel] at h ⊢
    by_cases hok : (last.pool.Allocate w done.length count).IsOutOfPoolMemory = false
    · simp only [hok, Bool.not_false, if_true, Option.some.injEq] at h ⊢
      subst h
      exact ⟨_, getElem?_replace_eq done [] _, rfl, rfl, rfl,
        (IsOutOfPoolMemory_eq_false _).1 hok⟩
    · simp only [Bool.not_eq_false] at hok
      simp [hok] at h

theorem Attempt2_sets (w : World) (count : Nat) (rest : List PoolData) :
    ∀ (done : List PoolData) (s : vk.DescriptorSets),
      (DescriptorAllocator.Attempt2 w count done.length rest).new_sets = some s →
      drawn_from w (done ++ (DescriptorAllocator.Attempt2 w count done.length rest).pools) s := by
  induction rest with
  | nil =>
    intro done s h
    simp [DescriptorAllocator.Attempt2] at h
  | cons p rest ih =>
    intro done s h
    by_cases hguard : (p.previously_out_of_memory &&
        decide (w.LastCompletedFence done.length ≥ p.last_submission_id_associated)) = true
    · by_cases hok : (p.pool.Reset.Allocate w done.length count).IsOutOfPoolMemory = false
      · simp only [DescriptorAllocator.Attempt2, hguard, hok, Bool.not_false, if_true,
          Option.some.injEq] at h ⊢
        subst h
        exact ⟨_, getElem?_replace_eq done rest _, rfl, rfl, rfl,
          (IsOutOfPoolMemory_eq_false _).1 hok⟩
      · simp only [Bool.not_eq_false] at hok
        have h3 := ih (done ++ [PoolData.mk p.pool.Reset 0 true]) s
          (by simpa [DescriptorAllocator.Attempt2, hguard, hok] using h)
        simpa [DescriptorAllocator.Attempt2, hguard, hok] using h3
    · have h3 := ih (done ++ [p]) s (by simpa [DescriptorAllocator.Attempt2, hguard] using h)
      simpa [DescriptorAllocator.Attempt2, hguard] using h3

theorem Attempt3_sets (device : Device) (w : World) (count : Nat) (bank : DescriptorBank)
    (s : vk.DescriptorSets)
    (h : (DescriptorAllocator.Attempt3 device w count bank).ret = Except.ok s) :
    drawn_from w (DescriptorAllocator.Attempt3 device w count bank).bank.pools s := by
  cases hc : w.vkCreateDescriptorPool with
  | false =>
    rw [Attempt3_not_created device w count bank hc] at h
    cases h
  | true =>
    rw [Attempt3_created device w count bank hc] at h ⊢
    by_cases hok : ((vk.DescriptorPool.mk (AllocatePool.create_info device bank.info)
        0).Allocate w bank.pools.length count).IsOutOfPoolMemory = false
    · simp only [hok, Bool.not_false, if_true, Except.ok.injEq] at h ⊢
      subst h
      exact ⟨_, getElem?_replace_eq bank.pools [] _, rfl, rfl, rfl,
        (IsOutOfPoolMemory_eq_false _).1 hok⟩
    · simp only [Bool.not_eq_false] at hok
      simp [hok] at h

theorem AllocateDescriptors_sets (device : Device) (w : World) (bank : DescriptorBank)
    (count : Nat) (s : vk.DescriptorSets)
    (h : (DescriptorAllocator.AllocateDescriptors device w bank count).ret = Except.ok s) :
    drawn_from w (DescriptorAllocator.AllocateDescriptors device w bank count).bank.pools s := by
  cases e1 : (DescriptorAllocator.Attempt1 w count bank.pools).new_sets with
  | some s1 =>
    have h1 := Attempt1_sets w count bank.pools s1 e1
    simp only [DescriptorAllocator.AllocateDescriptors, e1, Except.ok.injEq] at h ⊢
    subst h
    exact h1
  | none =>
    cases e2 : (DescriptorAllocator.Attempt2 w count 0
        (DescriptorAllocator.Attempt1 w count bank.pools).pools).new_sets with
    | some s2 =>
      have h2 := Attempt2_sets w count _ [] s2 e2
      simp only [DescriptorAllocator.AllocateDescriptors, e1, e2, Except.ok.injEq] at h ⊢
      subst h
      simpa using h2
    | none =>
      simp only [DescriptorAllocator.AllocateDescriptors, e1, e2] at h ⊢
      exact Attempt3_sets device w count _ s h

theorem Commit_already_materialized (device : Device) (w : World) (bank : DescriptorBank)
    (self : DescriptorAllocator) (h : self.committed % SETS_GROW_RATE ≠ 0) :
    DescriptorAllocator.Commit device w bank self =
      { bank := bank, allocator := { self with committed := self.committed + 1 }, calls := [],
        ret := Except.ok (self.sets[self.committed / SETS_GROW_RATE]?.bind
          (fun chunk => chunk.get? (self.committed % SETS_GROW_RATE))) } := by
  simp [DescriptorAllocator.Commit, DescriptorAllocator.CommitResource, h]

theorem Commit_materializes (device : Device) (w : World) (bank : DescriptorBank)
    (self : DescriptorAllocator) (s : vk.DescriptorSets)
    (h : self.committed % SETS_GROW_RATE = 0)
    (hs : (DescriptorAllocator.AllocateDescriptors device w bank
      SETS_GROW_RATE).ret = Except.ok s) :
    DescriptorAllocator.Commit device w bank self =
      { bank := (DescriptorAllocator.AllocateDescriptors device w bank
          SETS_GROW_RATE).bank,
        allocator := { sets := self.sets ++ [s], committed := self.committed + 1 },
        calls := (DescriptorAllocator.AllocateDescriptors device w bank
          SETS_GROW_RATE).calls,
        ret := Except.ok ((self.sets ++ [s])[self.committed / SETS_GROW_RATE]?.bind
          (fun chunk => chunk.get? (self.committed % SETS_GROW_RATE))) } := by
  simp [DescriptorAllocator.Commit, DescriptorAllocator.CommitResource,
    DescriptorAllocator.Allocate, h, hs]

theorem Commit_throws (device : Device) (w : World) (bank : DescriptorBank)
    (self : DescriptorAllocator) (e : vk.Exception)
    (h : self.committed % SETS_GROW_RATE = 0)
    (hs : (DescriptorAllocator.AllocateDescriptors device w bank
      SETS_GROW_RATE).ret = Except.error e) :
    DescriptorAllocator.Commit device w bank self =
      { bank := (DescriptorAllocator.AllocateDescriptors device w bank
          SETS_GROW_RATE).bank,
        allocator := self,
        calls := (DescriptorAllocator.AllocateDescriptors device w bank
          SETS_GROW_RATE).calls,
        ret := Except.error e } := by
  simp [DescriptorAllocator.Commit, DescriptorAllocator.CommitResource,
    DescriptorAllocator.Allocate, h, hs]

/-! ## Claims about resets, stamps and returned sets -/

/-- Claim C3 fails as stated: allocator A commits at tick 1, which
materializes its first chunk from record 0, and commits again at tick 2.  The
second `Commit` returns slot 1 of that chunk without any driver call, and
record 0 still carries `last_submission_id_associated = 1`, below the tick 2
of the commit. -/
theorem Commit_reuse_leaves_stamp_behind :
    commit_a_2.calls = [] ∧
    ∃ v p, commit_a_2.ret = Except.ok (some v) ∧
      commit_a_2.bank.pools[v.pool]? = some p ∧
      p.last_submission_id_associated = 1 ∧
      p.last_submission_id_associated < world_tick_2.current_tick :=
  ⟨by decide, ⟨{ pool := 0, generation := 0, slot := 1 }, _, rfl, rfl, by decide, by decide⟩⟩

/-- Claim C3 as amended: a record is stamped by `AllocateDescriptors` only.
A `Commit` that returns an already materialized set (the counter is not at a
chunk boundary) makes no driver call and leaves the bank, hence every record,
and the allocator's chunks as they were.  A `Commit` at a chunk boundary that
returns appended exactly one chunk, and the record that chunk was drawn from
carries `last_submission_id_associated` equal to the tick of the call. -/
theorem Commit_stamps_only_new_chunks (device : Device) (w : World) (bank : DescriptorBank)
    (self : DescriptorAllocator) :
    (self.committed % SETS_GROW_RATE ≠ 0 →
      (DescriptorAllocator.Commit device w bank self).bank = bank ∧
      (DescriptorAllocator.Commit device w bank self).calls = [] ∧
      (DescriptorAllocator.Commit device w bank self).allocator.sets = self.sets) ∧
    (self.committed % SETS_GROW_RATE = 0 →
      ∀ v, (DescriptorAllocator.Commit device w bank self).ret = Except.ok v →
      ∃ chunk p,
        (DescriptorAllocator.Commit device w bank self).allocator.sets = self.sets ++ [chunk] ∧
        (DescriptorAllocator.Commit device w bank self).bank.pools[chunk.pool]? = some p ∧
        p.last_submission_id_associated = w.current_tick) := by
  constructor
  · intro h
    rw [Commit_already_materialized device w bank self h]
    exact ⟨rfl, rfl, rfl⟩
  · intro h v hv
    cases hr : (DescriptorAllocator.AllocateDescriptors device w bank SETS_GROW_RATE).ret with
    | error e =>
      rw [Commit_throws device w bank self e h hr] at hv
      cases hv
    | ok s =>
      obtain ⟨p, hp, hl, _⟩ := AllocateDescriptors_sets device w bank SETS_GROW_RATE s hr
      rw [Commit_materializes device w bank self s h hr]
      exact ⟨s, p, rfl, hp, hl⟩

/-- Witness of `Commit_stamps_only_new_chunks`: the first commit of a fresh
allocator, at tick 1 on a bank with one fresh record. -/
theorem Commit_stamps_only_new_chunks_witness :
    fresh_allocator.committed % SETS_GROW_RATE = 0 ∧
    ∃ chunk p,
      commit_a_1.allocator.sets = fresh_allocator.sets ++ [chunk] ∧
      commit_a_1.bank.pools[chunk.pool]? = some p ∧
      p.last_submission_id_associated = world_tick_1.current_tick :=
  ⟨by decide,
    (Commit_stamps_only_new_chunks sample_device world_tick_1 sample_bank fresh_allocator).2
      (by decide) (some { pool := 0, generation := 0, slot := 0 }) rfl⟩

/-- Claim C4: in the history of any sequence of `AllocateDescriptors` calls on
a bank (whatever its records at the start and whatever the completed fence
values), every reset was made on a record whose `previously_out_of_memory`
was true, with a completed fence at or above the tick stamped by the most
recent successful allocation from that record since its last reset, unless
there was no such allocation. -/
theorem reset_only_when_flagged_and_completed (device : Device) (bank : DescriptorBank)
    (calls : List Call) (k i : Nat) (oom : Bool) (last completed : Nat)
    (hk : (run device bank calls).2[k]? = some (Event.reset i oom last completed)) :
    oom = true ∧
    (last_stamp i ((run device bank calls).2.take k) = none ∨
      ∃ t, last_stamp i ((run device bank calls).2.take k) = some t ∧ completed ≥ t) := by
  have h0 : stamps_recorded [] bank.pools ∧ resets_safe [] := by
    constructor
    · intro j t ht
      simp [last_stamp] at ht
    · intro j a b c d hj
      simp at hj
  have h1 := run_consistent device calls bank [] h0
  simp only [List.nil_append] at h1
  exact h1.2 k i oom last completed hk

/-- Witness of `reset_only_when_flagged_and_completed`: two calls of sixteen
sets; the second finds the pool full after tick 1 completed and resets it (the
third driver call of the history). -/
theorem reset_only_when_flagged_and_completed_witness :
    (run sample_device sample_bank sample_calls).2[2]? = some (Event.reset 0 true 1 1) ∧
    (true = true ∧
      (last_stamp 0 ((run sample_device sample_bank sample_calls).2.take 2) = none ∨
        ∃ t, last_stamp 0 ((run sample_device sample_bank sample_calls).2.take 2) = some t ∧
          1 ≥ t)) :=
  ⟨by decide,
    reset_only_when_flagged_and_completed sample_device sample_bank sample_calls 2 0 true 1 1
      (by decide)⟩

/-- Claim C5 fails as stated: allocator A materializes its first chunk from
record 0 at tick 1; allocator B, on the same bank, then finds the pool full
after tick 1 completed, and `AllocateDescriptors` resets record 0; the next
`Commit` of allocator A returns slot 1 of its first chunk, drawn from the pool
before that reset (generation 0, while the pool is in generation 1). -/
theorem Commit_returns_set_of_reset_pool :
    Event.reset 0 true 1 1 ∈ commit_b_1.calls ∧
    commit_a_after_b.calls = [] ∧
    ∃ v p, commit_a_after_b.ret = Except.ok (some v) ∧
      commit_a_after_b.bank.pools[v.pool]? = some p ∧
      v.generation = 0 ∧ p.pool.resets = 1 ∧ v.generation < p.pool.resets :=
  ⟨by decide, by decide,
    ⟨{ pool := 0, generation := 0, slot := 1 }, _, rfl, rfl, rfl, by decide, by decide⟩⟩

/-- Claim C5 as amended: a `Commit` that materializes a new chunk (the counter
stands at the end of the materialized chunks) returns a set that was drawn
from its pool after that pool's most recent reset: the reset generation of the
set is the current generation of the pool of the record it names.  Nothing is
promised for a set returned from an earlier chunk. -/
theorem Commit_new_chunk_in_current_generation (device : Device) (w : World)
    (bank : DescriptorBank) (self : DescriptorAllocator) (v : VkDescriptorSet)
    (hcap : self.committed = SETS_GROW_RATE * self.sets.length)
    (hret : (DescriptorAllocator.Commit device w bank self).ret = Except.ok (some v)) :
    ∃ p, (DescriptorAllocator.Commit device w bank self).bank.pools[v.pool]? = some p ∧
      p.pool.resets = v.generation := by
  have h : self.committed % SETS_GROW_RATE = 0 := by
    rw [hcap]
    exact Nat.mul_mod_right _ _
  have hdiv : self.committed / SETS_GROW_RATE = self.sets.length := by
    rw [hcap]
    exact Nat.mul_div_cancel_left _ (by decide)
  cases hr : (DescriptorAllocator.AllocateDescriptors device w bank SETS_GROW_RATE).ret with
  | error e =>
    rw [Commit_throws device w bank self e h hr] at hret
    cases hret
  | ok s =>
    obtain ⟨p, hp, _, _, hgen, _⟩ :=
      AllocateDescriptors_sets device w bank SETS_GROW_RATE s hr
    rw [Commit_materializes device w bank self s h hr] at hret ⊢
    simp only [hdiv, h, Except.ok.injEq] at hret
    rw [getElem?_replace_eq self.sets [] s] at hret
    simp only [Option.some_bind, vk.DescriptorSets.get?] at hret
    split at hret
    · injection hret with hv
      subst hv
      exact ⟨p, hp, hgen⟩
    · cases hret

/-- Witness of `Commit_new_chunk_in_current_generation`: the first commit of
allocator B, which resets record 0 and draws its chunk from the reset pool. -/
theorem Commit_new_chunk_in_current_generation_witness :
    fresh_allocator.committed = SETS_GROW_RATE * fresh_allocator.sets.length ∧
    commit_b_1.ret = Except.ok (some { pool := 0, generation := 1, slot := 0 }) ∧
    ∃ p, commit_b_1.bank.pools[0]? = some p ∧ p.pool.resets = 1 :=
  ⟨by decide, rfl,
    Commit_new_chunk_in_current_generation sample_device world_tick_2_full commit_a_1.bank
      fresh_allocator { pool := 0, generation := 1, slot := 0 } (by decide) rfl⟩

/-! ## Pool creation -/

theorem pool_sizes_eq (size : Nat → Nat) (spp : Nat) (info : DescriptorBankInfo)
    (hsize : ∀ c ∈ six_counts info, (c * spp) % U32_SIZE = size c) :
    AllocatePool.pool_sizes { sets_per_pool := spp } info = expected_pool_sizes size info := by
  simp only [six_counts, List.mem_cons, List.mem_singleton, forall_eq_or_imp, forall_eq,
    List.not_mem_nil, IsEmpty.forall_iff, implies_true, and_true] at hsize
  obtain ⟨h1, h2, h3, h4, h5, h6⟩ := hsize
  simp only [AllocatePool.pool_sizes, AllocatePool.add, expected_pool_sizes, h1, h2, h3, h4,
    h5, h6]
  rcases Nat.eq_zero_or_pos info.uniform_buffers with a1 | a1 <;>
  rcases Nat.eq_zero_or_pos info.storage_buffers with a2 | a2 <;>
  rcases Nat.eq_zero_or_pos info.texture_buffers with a3 | a3 <;>
  rcases Nat.eq_zero_or_pos info.image_buffers with a4 | a4 <;>
  rcases Nat.eq_zero_or_pos info.textures with a5 | a5 <;>
  rcases Nat.eq_zero_or_pos info.images with a6 | a6 <;>
  simp [a1, a2, a3, a4, a5, a6, Nat.pos_iff_ne_zero.1]

theorem expected_pool_sizes_length (size : Nat → Nat) (info : DescriptorBankInfo) :
    (expected_pool_sizes size info).length = nonzero_counts info := by
  simp only [expected_pool_sizes, nonzero_counts, six_counts, List.length_map]
  rcases Nat.eq_zero_or_pos info.uniform_buffers with a1 | a1 <;>
  rcases Nat.eq_zero_or_pos info.storage_buffers with a2 | a2 <;>
  rcases Nat.eq_zero_or_pos info.texture_buffers with a3 | a3 <;>
  rcases Nat.eq_zero_or_pos info.image_buffers with a4 | a4 <;>
  rcases Nat.eq_zero_or_pos info.textures with a5 | a5 <;>
  rcases Nat.eq_zero_or_pos info.images with a6 | a6 <;>
  simp [a1, a2, a3, a4, a5, a6, Nat.pos_iff_ne_zero.1, List.filter]

theorem nonzero_counts_le (info : DescriptorBankInfo) : nonzero_counts info ≤ 6 := by
  have h := List.length_filter_le (fun c => decide (c ≠ 0)) (six_counts info)
  simpa [nonzero_counts, six_counts] using h

/-- Claim C11 fails as stated: with sixty-four sets per pool and `2^26`
uniform buffers the product `count x sets_per_pool` is `2^32`, while the one
entry `AllocatePool` passes to the driver has `descriptorCount = 0`. -/
theorem pool_size_product_wraps :
    many_uniform_buffers.uniform_buffers * device_64.sets_per_pool = 4294967296 ∧
    AllocatePool.pool_sizes device_64 many_uniform_buffers =
      [{ type := VkDescriptorType.VK_DESCRIPTOR_TYPE_UNIFORM_BUFFER, descriptorCount := 0 }] ∧
    AllocatePool.pool_sizes device_64 many_uniform_buffers ≠
      expected_pool_sizes (fun c => c * device_64.sets_per_pool) many_uniform_buffers := by
  decide

/-- Claim C11 as amended: the pool-size table `AllocatePool` passes to the
driver holds, in the fixed order of the six types, exactly one entry for each
type whose count is non-zero and none for a zero count, with
`descriptorCount = (count x sets_per_pool) mod 2^32`, which is
`count x sets_per_pool` whenever every such product is below `2^32`;
`poolSizeCount` is the number of non-zero counts, at most 6; `maxSets` is
`sets_per_pool` and `flags` is 0; when the driver creates the pool, the one
record pushed carries the handle of the pool created from this request, stamp
0 and a cleared flag, and when it does not, nothing is pushed. -/
theorem AllocatePool_pool_sizes (device : Device) (info : DescriptorBankInfo) :
    AllocatePool.pool_sizes device info =
      expected_pool_sizes (fun c => (c * device.sets_per_pool) % U32_SIZE) info ∧
    ((∀ c ∈ six_counts info, c * device.sets_per_pool < U32_SIZE) →
      AllocatePool.pool_sizes device info =
        expected_pool_sizes (fun c => c * device.sets_per_pool) info) ∧
    (AllocatePool.create_info device info).pPoolSizes = AllocatePool.pool_sizes device info ∧
    (AllocatePool.create_info device info).poolSizeCount = nonzero_counts info ∧
    nonzero_counts info ≤ 6 ∧
    (AllocatePool.create_info device info).maxSets = device.sets_per_pool ∧
    (AllocatePool.create_info device info).flags = 0 ∧
    (∀ pools, AllocatePool device true { info := info, pools := pools } =
      some { info := info,
             pools := pools ++
               [{ pool := { create_info := AllocatePool.create_info device info, resets := 0 },
                  last_submission_id_associated := 0,
                  previously_out_of_memory := false }] }) ∧
    (∀ pools, AllocatePool device false { info := info, pools := pools } = none) := by
  have h1 := pool_sizes_eq (fun c => (c * device.sets_per_pool) % U32_SIZE)
    device.sets_per_pool info (fun _ _ => rfl)
  have hlen : (AllocatePool.pool_sizes device info).length = nonzero_counts info := by
    rw [h1]
    exact expected_pool_sizes_length _ info
  have hle := nonzero_counts_le info
  refine ⟨h1, ?_, rfl, ?_, hle, rfl, rfl, fun _ => rfl, fun _ => rfl⟩
  · intro hsmall
    exact pool_sizes_eq (fun c => c * device.sets_per_pool) device.sets_per_pool info
      (fun c hc => Nat.mod_eq_of_lt (hsmall c hc))
  · show (AllocatePool.pool_sizes device info).length % U32_SIZE = nonzero_counts info
    rw [hlen]
    exact Nat.mod_eq_of_lt (by simp only [U32_SIZE]; omega)

/-- Witness of `AllocatePool_pool_sizes`: sixteen sets per pool, two uniform
buffers and three sampled images give the two entries 32 and 48. -/
theorem AllocatePool_pool_sizes_witness :
    (∀ c ∈ six_counts two_uniform_three_textures, c * sample_device.sets_per_pool < U32_SIZE) ∧
    AllocatePool.pool_sizes sample_device two_uniform_three_textures =
      expected_pool_sizes (fun c => c * sample_device.sets_per_pool)
        two_uniform_three_textures ∧
    expected_pool_sizes (fun c => c * sample_device.sets_per_pool) two_uniform_three_textures =
      [{ type := VkDescriptorType.VK_DESCRIPTOR_TYPE_UNIFORM_BUFFER, descriptorCount := 32 },
       { type := VkDescriptorType.VK_DESCRIPTOR_TYPE_COMBINED_IMAGE_SAMPLER,
         descriptorCount := 48 }] :=
  ⟨by decide,
    (AllocatePool_pool_sizes sample_device two_uniform_three_textures).2.1 (by decide),
    by decide⟩

/-! ## The three attempts: equations -/

theorem Allocate_result (pool : vk.DescriptorPool) (w : World) (index count : Nat) :
    (pool.Allocate w index count).result = w.vkAllocateDescriptorSets index pool.resets := rfl

theorem Allocate_not_out_of_memory (pool : vk.DescriptorPool) (w : World) (index count : Nat)
    (h : w.vkAllocateDescriptorSets index pool.resets = VkResult.VK_SUCCESS) :
    (pool.Allocate w index count).IsOutOfPoolMemory = false :=
  (IsOutOfPoolMemory_eq_false _).2 h

theorem Allocate_out_of_memory (pool : vk.DescriptorPool) (w : World) (index count : Nat)
    (h : w.vkAllocateDescriptorSets index pool.resets ≠ VkResult.VK_SUCCESS) :
    (pool.Allocate w index count).IsOutOfPoolMemory = true := by
  cases hb : (pool.Allocate w index count).IsOutOfPoolMemory with
  | true => rfl
  | false => exact absurd ((IsOutOfPoolMemory_eq_false _).1 hb) h

theorem Attempt1_nil (w : World) (count : Nat) :
    DescriptorAllocator.Attempt1 w count [] = { pools := [], calls := [], new_sets := none } :=
  rfl

theorem Attempt1_ok (w : World) (count : Nat) (done : List PoolData) (last : PoolData)
    (h : w.vkAllocateDescriptorSets done.length last.pool.resets = VkResult.VK_SUCCESS) :
    DescriptorAllocator.Attempt1 w count (done ++ [last]) =
      { pools := done ++ [{ last with last_submission_id_associated := w.current_tick
                                      previously_out_of_memory := false }],
        calls := [Event.allocate done.length w.current_tick VkResult.VK_SUCCESS],
        new_sets := some (last.pool.Allocate w done.length count) } := by
  have hb := Allocate_not_out_of_memory last.pool w done.length count h
  have hr : (last.pool.Allocate w done.length count).result = VkResult.VK_SUCCESS := h
  simp [DescriptorAllocator.Attempt1, hb, hr]

theorem Attempt1_fail (w : World) (count : Nat) (done : List PoolData) (last : PoolData)
    (h : w.vkAllocateDescriptorSets done.length last.pool.resets ≠ VkResult.VK_SUCCESS) :
    DescriptorAllocator.Attempt1 w count (done ++ [last]) =
      { pools := done ++ [{ last with previously_out_of_memory := true }],
        calls := [Event.allocate done.length w.current_tick
          (w.vkAllocateDescriptorSets done.length last.pool.resets)],
        new_sets := none } := by
  have hb := Allocate_out_of_memory last.pool w done.length count h
  simp [DescriptorAllocator.Attempt1, hb, Allocate_result]

theorem Attempt2_nil (w : World) (count index : Nat) :
    DescriptorAllocator.Attempt2 w count index [] =
      { pools := [], calls := [], new_sets := none } := rfl

theorem Attempt2_skip (w : World) (count index : Nat) (p : PoolData) (rest : List PoolData)
    (h : DescriptorAllocator.eligible w index p = false) :
    DescriptorAllocator.Attempt2 w count index (p :: rest) =
      { pools := p :: (DescriptorAllocator.Attempt2 w count (index + 1) rest).pools,
        calls := (DescriptorAllocator.Attempt2 w count (index + 1) rest).calls,
        new_sets := (DescriptorAllocator.Attempt2 w count (index + 1) rest).new_sets } := by
  simp only [DescriptorAllocator.eligible] at h
  simp [DescriptorAllocator.Attempt2, h]

theorem Attempt2_ok (w : World) (count index : Nat) (p : PoolData) (rest : List PoolData)
    (h : DescriptorAllocator.eligible w index p = true)
    (hok : w.vkAllocateDescriptorSets index (p.pool.resets + 1) = VkResult.VK_SUCCESS) :
    DescriptorAllocator.Attempt2 w count index (p :: rest) =
      { pools := { pool := p.pool.Reset, last_submission_id_associated := w.current_tick,
                   previously_out_of_memory := false } :: rest,
        calls := [Event.reset index true p.last_submission_id_associated
                    (w.LastCompletedFence index),
                  Event.allocate index w.current_tick VkResult.VK_SUCCESS],
        new_sets := some (p.pool.Reset.Allocate w index count) } := by
  have hb := Allocate_not_out_of_memory p.pool.Reset w index count hok
  have hr : (p.pool.Reset.Allocate w index count).result = VkResult.VK_SUCCESS := hok
  simp only [DescriptorAllocator.eligible, Bool.and_eq_true, decide_eq_true_eq] at h
  have ho : p.previously_out_of_memory = true := h.1
  have hf : p.last_submission_id_associated ≤ w.LastCompletedFence index := h.2
  simp [DescriptorAllocator.Attempt2, hb, hr, ho, hf]

theorem Attempt2_fail (w : World) (count index : Nat) (p : PoolData) (rest : List PoolData)
    (h : DescriptorAllocator.eligible w index p = true)
    (hfail : w.vkAllocateDescriptorSets index (p.pool.resets + 1) ≠ VkResult.VK_SUCCESS) :
    DescriptorAllocator.Attempt2 w count index (p :: rest) =
      { pools := { pool := p.pool.Reset, last_submission_id_associated := 0,
                   previously_out_of_memory := true } ::
                 (DescriptorAllocator.Attempt2 w count (index + 1) rest).pools,
        calls := Event.reset index true p.last_submission_id_associated
                    (w.LastCompletedFence index) ::
                 Event.allocate index w.current_tick
                    (w.vkAllocateDescriptorSets index (p.pool.resets + 1)) ::
                 (DescriptorAllocator.Attempt2 w count (index + 1) rest).calls,
        new_sets := (DescriptorAllocator.Attempt2 w count (index + 1) rest).new_sets } := by
  have hb := Allocate_out_of_memory p.pool.Reset w index count hfail
  have hr : (p.pool.Reset.Allocate w index count).result =
      w.vkAllocateDescriptorSets index (p.pool.resets + 1) := rfl
  simp only [DescriptorAllocator.eligible, Bool.and_eq_true, decide_eq_true_eq] at h
  have ho : p.previously_out_of_memory = true := h.1
  have hf : p.last_submission_id_associated ≤ w.LastCompletedFence index := h.2
  simp [DescriptorAllocator.Attempt2, hb, hr, ho, hf]

theorem Attempt3_ok (device : Device) (w : World) (count : Nat) (bank : DescriptorBank)
    (hc : w.vkCreateDescriptorPool = true)
    (hok : w.vkAllocateDescriptorSets bank.pools.length 0 = VkResult.VK_SUCCESS) :
    DescriptorAllocator.Attempt3 device w count bank =
      { bank := { info := bank.info,
                  pools := bank.pools ++
                    [{ pool := { create_info := AllocatePool.create_info device bank.info,
                                 resets := 0 },
                       last_submission_id_associated := w.current_tick,
                       previously_out_of_memory := false }] },
        calls := [Event.create (AllocatePool.create_info device bank.info),
                  Event.allocate bank.pools.length w.current_tick VkResult.VK_SUCCESS],
        ret := Except.ok ((vk.DescriptorPool.mk (AllocatePool.create_info device bank.info)
          0).Allocate w bank.pools.length count) } := by
  have hb := Allocate_not_out_of_memory
    (vk.DescriptorPool.mk (AllocatePool.create_info device bank.info) 0) w bank.pools.length
    count hok
  rw [Attempt3_created device w count bank hc]
  simp [hb, hok]

theorem Attempt3_fail (device : Device) (w : World) (count : Nat) (bank : DescriptorBank)
    (hc : w.vkCreateDescriptorPool = true)
    (hfail : w.vkAllocateDescriptorSets bank.pools.length 0 ≠ VkResult.VK_SUCCESS) :
    DescriptorAllocator.Attempt3 device w count bank =
      { bank := { info := bank.info,
                  pools := bank.pools ++
                    [{ pool := { create_info := AllocatePool.create_info device bank.info,
                                 resets := 0 },
                       last_submission_id_associated := 0,
                       previously_out_of_memory := false }] },
        calls := [Event.create (AllocatePool.create_info device bank.info),
                  Event.allocate bank.pools.length w.current_tick
                    (w.vkAllocateDescriptorSets bank.pools.length 0)],
        ret := Except.error (vk.Exception.allocation
          (w.vkAllocateDescriptorSets bank.pools.length 0)) } := by
  have hb := Allocate_out_of_memory
    (vk.DescriptorPool.mk (AllocatePool.create_info device bank.info) 0) w bank.pools.length
    count hfail
  rw [Attempt3_created device w count bank hc]
  simp [hb]

theorem Attempt1_handles (w : World) (count : Nat) (pools : List PoolData) :
    handles (DescriptorAllocator.Attempt1 w count pools).pools = handles pools := by
  rcases List.eq_nil_or_concat pools with h | ⟨done, last, h⟩
  · subst h
    rfl
  · rw [List.concat_eq_append] at h
    subst h
    by_cases hok : w.vkAllocateDescriptorSets done.length last.pool.resets = VkResult.VK_SUCCESS
    · rw [Attempt1_ok w count done last hok]
      simp [handles]
    · rw [Attempt1_fail w count done last hok]
      simp [handles]

theorem Attempt2_handles (w : World) (count : Nat) (pools : List PoolData) :
    ∀ index, handles (DescriptorAllocator.Attempt2 w count index pools).pools =
      handles pools := by
  induction pools with
  | nil =>
    intro index
    rfl
  | cons p rest ih =>
    intro index
    cases he : DescriptorAllocator.eligible w index p with
    | false =>
      rw [Attempt2_skip w count index p rest he]
      simpa [handles] using ih (index + 1)
    | true =>
      by_cases hok : w.vkAllocateDescriptorSets index (p.pool.resets + 1) =
          VkResult.VK_SUCCESS
      · rw [Attempt2_ok w count index p rest he hok]
        simp [handles, vk.DescriptorPool.Reset]
      · rw [Attempt2_fail w count index p rest he hok]
        simpa [handles, vk.DescriptorPool.Reset] using ih (index + 1)

theorem handles_length (pools : List PoolData) : (handles pools).length = pools.length := by
  simp [handles]

theorem Attempt1_length (w : World) (count : Nat) (pools : List PoolData) :
    (DescriptorAllocator.Attempt1 w count pools).pools.length = pools.length := by
  rw [← handles_length, Attempt1_handles, handles_length]

theorem Attempt2_length (w : World) (count index : Nat) (pools : List PoolData) :
    (DescriptorAllocator.Attempt2 w count index pools).pools.length = pools.length := by
  rw [← handles_length, Attempt2_handles, handles_length]

theorem AllocateDescriptors_of_first (device : Device) (w : World) (bank : DescriptorBank)
    (count : Nat) (s : vk.DescriptorSets)
    (h : (DescriptorAllocator.Attempt1 w count bank.pools).new_sets = some s) :
    DescriptorAllocator.AllocateDescriptors device w bank count =
      { bank := { info := bank.info,
                  pools := (DescriptorAllocator.Attempt1 w count bank.pools).pools },
        calls := (DescriptorAllocator.Attempt1 w count bank.pools).calls,
        ret := Except.ok s } := by
  simp [DescriptorAllocator.AllocateDescriptors, h]

theorem AllocateDescriptors_of_second (device : Device) (w : World) (bank : DescriptorBank)
    (count : Nat) (s : vk.DescriptorSets)
    (h1 : (DescriptorAllocator.Attempt1 w count bank.pools).new_sets = none)
    (h2 : (DescriptorAllocator.Attempt2 w count 0
      (DescriptorAllocator.Attempt1 w count bank.pools).pools).new_sets = some s) :
    DescriptorAllocator.AllocateDescriptors device w bank count =
      { bank := { info := bank.info,
                  pools := (DescriptorAllocator.Attempt2 w count 0
                    (DescriptorAllocator.Attempt1 w count bank.pools).pools).pools },
        calls := (DescriptorAllocator.Attempt1 w count bank.pools).calls ++
          (DescriptorAllocator.Attempt2 w count 0
            (DescriptorAllocator.Attempt1 w count bank.pools).pools).calls,
        ret := Except.ok s } := by
  simp [DescriptorAllocator.AllocateDescriptors, h1, h2]

theorem AllocateDescriptors_of_third (device : Device) (w : World) (bank : DescriptorBank)
    (count : Nat) (h : DescriptorAllocator.reaches_attempt3 w count bank) :
    DescriptorAllocator.AllocateDescriptors device w bank count =
      { bank := (DescriptorAllocator.Attempt3 device w count
          { info := bank.info,
            pools := (DescriptorAllocator.Attempt2 w count 0
              (DescriptorAllocator.Attempt1 w count bank.pools).pools).pools }).bank,
        calls := (DescriptorAllocator.Attempt1 w count bank.pools).calls ++
          (DescriptorAllocator.Attempt2 w count 0
            (DescriptorAllocator.Attempt1 w count bank.pools).pools).calls ++
          (DescriptorAllocator.Attempt3 device w count
            { info := bank.info,
              pools := (DescriptorAllocator.Attempt2 w count 0
                (DescriptorAllocator.Attempt1 w count bank.pools).pools).pools }).calls,
        ret := (DescriptorAllocator.Attempt3 device w count
          { info := bank.info,
            pools := (DescriptorAllocator.Attempt2 w count 0
              (DescriptorAllocator.Attempt1 w count bank.pools).pools).pools }).ret } := by
  obtain ⟨h1, h2⟩ := h
  simp [DescriptorAllocator.AllocateDescriptors, h1, h2]

/-! ## Claims about the three attempts -/

/-- Claim C12: when the bank has at least one record and the driver's
allocation against the most recently created record succeeds,
`AllocateDescriptors` returns those sets, makes exactly one driver call (that
allocation: no reset, no pool creation), stamps the record with the current
tick and clears its flag, and leaves every other record, the record count and
the bank's info as they were. -/
theorem AllocateDescriptors_first_attempt_succeeds (device : Device) (w : World)
    (bank : DescriptorBank) (count : Nat) (done : List PoolData) (last : PoolData)
    (hpools : bank.pools = done ++ [last])
    (hok : w.vkAllocateDescriptorSets done.length last.pool.resets = VkResult.VK_SUCCESS) :
    (DescriptorAllocator.AllocateDescriptors device w bank count).ret =
      Except.ok (last.pool.Allocate w done.length count) ∧
    (last.pool.Allocate w done.length count).result = VkResult.VK_SUCCESS ∧
    (last.pool.Allocate w done.length count).pool = done.length ∧
    (DescriptorAllocator.AllocateDescriptors device w bank count).calls =
      [Event.allocate done.length w.current_tick VkResult.VK_SUCCESS] ∧
    (DescriptorAllocator.AllocateDescriptors device w bank count).bank.pools =
      done ++ [{ pool := last.pool, last_submission_id_associated := w.current_tick,
                 previously_out_of_memory := false }] ∧
    (DescriptorAllocator.AllocateDescriptors device w bank count).bank.pools.length =
      bank.pools.length ∧
    (∀ i, i < done.length →
      (DescriptorAllocator.AllocateDescriptors device w bank count).bank.pools[i]? =
        bank.pools[i]?) ∧
    (DescriptorAllocator.AllocateDescriptors device w bank count).bank.info = bank.info := by
  have h1 := Attempt1_ok w count done last hok
  rw [← hpools] at h1
  have hs : (DescriptorAllocator.Attempt1 w count bank.pools).new_sets =
      some (last.pool.Allocate w done.length count) := by
    rw [h1]
  rw [AllocateDescriptors_of_first device w bank count _ hs, h1, hpools]
  refine ⟨rfl, hok, rfl, rfl, rfl, by simp, ?_, rfl⟩
  intro i hi
  simp [List.getElem?_append_left hi]

/-- Witness of `AllocateDescriptors_first_attempt_succeeds`: the first call
on a bank with one fresh record, at tick 1, the driver having room. -/
theorem AllocateDescriptors_first_attempt_succeeds_witness :
    sample_bank.pools = [] ++ sample_bank.pools ∧
    (DescriptorAllocator.AllocateDescriptors sample_device world_tick_1 sample_bank 16).calls =
      [Event.allocate 0 1 VkResult.VK_SUCCESS] ∧
    (DescriptorAllocator.AllocateDescriptors sample_device world_tick_1
      sample_bank 16).bank.pools.length = sample_bank.pools.length :=
  have h := AllocateDescriptors_first_attempt_succeeds sample_device world_tick_1 sample_bank 16
    [] { pool := { create_info := AllocatePool.create_info sample_device four_uniform_buffers,
                   resets := 0 },
         last_submission_id_associated := 0, previously_out_of_memory := false } rfl rfl
  ⟨rfl, h.2.2.2.1, h.2.2.2.2.2.1⟩

theorem Attempt2_none_eligible (w : World) (count : Nat) (pools : List PoolData) :
    ∀ index, (∀ j q, pools[j]? = some q →
        DescriptorAllocator.eligible w (index + j) q = false) →
      DescriptorAllocator.Attempt2 w count index pools =
        { pools := pools, calls := [], new_sets := none } := by
  induction pools with
  | nil =>
    intro index _
    rfl
  | cons q rest ih =>
    intro index hall
    have hq : DescriptorAllocator.eligible w index q = false := hall 0 q (by simp)
    have h := ih (index + 1)
      (fun j r hj => by
        have := hall (j + 1) r (by simpa using hj)
        rwa [show index + (j + 1) = index + 1 + j by omega] at this)
    rw [Attempt2_skip w count index q _ hq, h]

/-- Claim C14 fails as stated, in three ways.  First: the bank has a single
record, stamped 1; at tick 2, tick 1 completed, its allocation fails with a
capacity error.  There is no other record, eligible or not, yet
`AllocateDescriptors` resets the record it just flagged, serves the request
from it and appends no record.  Second: on the bank with two records, nothing
completed, no record is eligible and a record is appended, but the driver
refuses the allocation from the new pool too, and the call fails instead of
returning sets.  Third: on the same bank, when the driver cannot create a
pool, no record is appended and the call fails with the creation error. -/
theorem first_attempt_failure_without_growth_or_sets :
    (one_record_bank.pools = [record_with 1 false] ∧
      world_tick_2_full.vkAllocateDescriptorSets 0 (record_with 1 false).pool.resets =
        VkResult.VK_ERROR_OUT_OF_POOL_MEMORY ∧
      (DescriptorAllocator.AllocateDescriptors sample_device world_tick_2_full one_record_bank
        16).calls =
        [Event.allocate 0 2 VkResult.VK_ERROR_OUT_OF_POOL_MEMORY,
         Event.reset 0 true 1 1,
         Event.allocate 0 2 VkResult.VK_SUCCESS] ∧
      (DescriptorAllocator.AllocateDescriptors sample_device world_tick_2_full one_record_bank
        16).bank.pools.length = 1) ∧
    ((DescriptorAllocator.AllocateDescriptors sample_device world_tick_6_exhausted
        two_record_bank 16).calls =
        [Event.allocate 1 6 VkResult.VK_ERROR_OUT_OF_POOL_MEMORY,
         Event.create (AllocatePool.create_info sample_device four_uniform_buffers),
         Event.allocate 2 6 VkResult.VK_ERROR_OUT_OF_POOL_MEMORY] ∧
      (DescriptorAllocator.AllocateDescriptors sample_device world_tick_6_exhausted
        two_record_bank 16).ret =
        Except.error (vk.Exception.allocation VkResult.VK_ERROR_OUT_OF_POOL_MEMORY)) ∧
    ((DescriptorAllocator.AllocateDescriptors sample_device world_tick_6_no_pool
        two_record_bank 16).calls =
        [Event.allocate 1 6 VkResult.VK_ERROR_OUT_OF_POOL_MEMORY,
         Event.create (AllocatePool.create_info sample_device four_uniform_buffers)] ∧
      (DescriptorAllocator.AllocateDescriptors sample_device world_tick_6_no_pool
        two_record_bank 16).bank.pools.length = two_record_bank.pools.length ∧
      (DescriptorAllocator.AllocateDescriptors sample_device world_tick_6_no_pool
        two_record_bank 16).ret = Except.error vk.Exception.creation) :=
  ⟨by decide, ⟨by decide, rfl⟩, by decide, by decide, rfl⟩

theorem Attempt2_after_failed_first (w : World) (count : Nat) (done : List PoolData)
    (last : PoolData)
    (hothers : ∀ j q, done[j]? = some q → DescriptorAllocator.eligible w j q = false)
    (hlast : w.LastCompletedFence done.length < last.last_submission_id_associated) :
    DescriptorAllocator.Attempt2 w count 0
        (done ++ [{ last with previously_out_of_memory := true }]) =
      { pools := done ++ [{ last with previously_out_of_memory := true }], calls := [],
        new_sets := none } := by
  apply Attempt2_none_eligible
  intro j q hj
  rw [Nat.zero_add]
  rcases Nat.lt_trichotomy j done.length with hlt | heq | hgt
  · rw [List.getElem?_append_left hlt] at hj
    exact hothers j q hj
  · subst heq
    rw [getElem?_replace_eq] at hj
    injection hj with hq
    subst hq
    simp [DescriptorAllocator.eligible, hlast]
  · rw [List.getElem?_eq_none (by simp; omega)] at hj
    cases hj

/-- Claim C14 as amended: when the allocation against the most recently
created record fails with a capacity error and no record is eligible for
reset (no other record is, and the completed fence has not reached the stamp
of the record just flagged), `AllocateDescriptors` issues no reset and
requests the creation of one pool.  If the driver creates it, exactly one new
record is appended and one allocation is made against it: if that succeeds
the sets of the new record are returned and the record is stamped with the
current tick, otherwise the call fails with the driver's result code.  If the
driver does not create the pool, no record is appended, no further allocation
is made and the call fails with the creation error. -/
theorem AllocateDescriptors_grows_when_none_eligible (device : Device) (w : World)
    (bank : DescriptorBank) (count : Nat) (done : List PoolData) (last : PoolData)
    (hpools : bank.pools = done ++ [last])
    (hfail : w.vkAllocateDescriptorSets done.length last.pool.resets ≠ VkResult.VK_SUCCESS)
    (hothers : ∀ j q, done[j]? = some q → DescriptorAllocator.eligible w j q = false)
    (hlast : w.LastCompletedFence done.length < last.last_submission_id_associated) :
    (w.vkCreateDescriptorPool = true →
      (DescriptorAllocator.AllocateDescriptors device w bank count).calls =
        [Event.allocate done.length w.current_tick
           (w.vkAllocateDescriptorSets done.length last.pool.resets),
         Event.create (AllocatePool.create_info device bank.info),
         Event.allocate (done.length + 1) w.current_tick
           (w.vkAllocateDescriptorSets (done.length + 1) 0)] ∧
      (DescriptorAllocator.AllocateDescriptors device w bank count).bank.pools.length =
        bank.pools.length + 1 ∧
      (∃ fresh,
        (DescriptorAllocator.AllocateDescriptors device w bank count).bank.pools =
          done ++ [{ last with previously_out_of_memory := true }] ++ [fresh] ∧
        fresh.pool =
          { create_info := AllocatePool.create_info device bank.info, resets := 0 } ∧
        fresh.previously_out_of_memory = false ∧
        (w.vkAllocateDescriptorSets (done.length + 1) 0 = VkResult.VK_SUCCESS →
          fresh.last_submission_id_associated = w.current_tick)) ∧
      (w.vkAllocateDescriptorSets (done.length + 1) 0 = VkResult.VK_SUCCESS →
        ∃ s, (DescriptorAllocator.AllocateDescriptors device w bank count).ret = Except.ok s ∧
          s.pool = done.length + 1 ∧ s.generation = 0 ∧ s.result = VkResult.VK_SUCCESS) ∧
      (w.vkAllocateDescriptorSets (done.length + 1) 0 ≠ VkResult.VK_SUCCESS →
        (DescriptorAllocator.AllocateDescriptors device w bank count).ret =
          Except.error (vk.Exception.allocation
            (w.vkAllocateDescriptorSets (done.length + 1) 0)))) ∧
    (w.vkCreateDescriptorPool = false →
      (DescriptorAllocator.AllocateDescriptors device w bank count).calls =
        [Event.allocate done.length w.current_tick
           (w.vkAllocateDescriptorSets done.length last.pool.resets),
         Event.create (AllocatePool.create_info device bank.info)] ∧
      (DescriptorAllocator.AllocateDescriptors device w bank count).bank.pools =
        done ++ [{ last with previously_out_of_memory := true }] ∧
      (DescriptorAllocator.AllocateDescriptors device w bank count).ret =
        Except.error vk.Exception.creation) := by
  have h1 := Attempt1_fail w count done last hfail
  rw [← hpools] at h1
  have h2 := Attempt2_after_failed_first w count done last hothers hlast
  have hn1 : (DescriptorAllocator.Attempt1 w count bank.pools).new_sets = none := by rw [h1]
  have hn2 : (DescriptorAllocator.Attempt2 w count 0
      (DescriptorAllocator.Attempt1 w count bank.pools).pools).new_sets = none := by
    rw [h1, h2]
  have hlen : (done ++ [{ last with previously_out_of_memory := true }]).length =
      done.length + 1 := by simp
  rw [AllocateDescriptors_of_third device w bank count ⟨hn1, hn2⟩, h1, h2]
  constructor
  · intro hc
    by_cases hok : w.vkAllocateDescriptorSets (done.length + 1) 0 = VkResult.VK_SUCCESS
    · have h3 := Attempt3_ok device w count
        { info := bank.info,
          pools := done ++ [{ last with previously_out_of_memory := true }] }
        hc (by rw [hlen]; exact hok)
      simp only [hlen] at h3
      rw [h3]
      refine ⟨by simp [hok], by simp [hpools], ⟨_, rfl, rfl, rfl, fun _ => rfl⟩, ?_, ?_⟩
      · intro _
        exact ⟨_, rfl, rfl, rfl, hok⟩
      · intro hne
        exact absurd hok hne
    · have h3 := Attempt3_fail device w count
        { info := bank.info,
          pools := done ++ [{ last with previously_out_of_memory := true }] }
        hc (by rw [hlen]; exact hok)
      simp only [hlen] at h3
      rw [h3]
      refine ⟨by simp, by simp [hpools], ⟨_, rfl, rfl, rfl, ?_⟩, ?_, ?_⟩
      · intro hc
        exact absurd hc hok
      · intro hc
        exact absurd hc hok
      · intro _
        rfl
  · intro hc
    rw [Attempt3_not_created device w count _ hc]
    exact ⟨by simp, rfl, rfl⟩

/-- Witness of `AllocateDescriptors_grows_when_none_eligible`: end-to-end
scenario 3 on a bank with two records, nothing completed yet: the newer record
fails, no record is eligible, a third record is created and serves the
request. -/
theorem AllocateDescriptors_grows_when_none_eligible_witness :
    (DescriptorAllocator.AllocateDescriptors sample_device world_tick_6_waiting
      two_record_bank 16).calls =
      [Event.allocate 1 6 VkResult.VK_ERROR_OUT_OF_POOL_MEMORY,
       Event.create (AllocatePool.create_info sample_device four_uniform_buffers),
       Event.allocate 2 6 VkResult.VK_SUCCESS] ∧
    (DescriptorAllocator.AllocateDescriptors sample_device world_tick_6_waiting
      two_record_bank 16).bank.pools.length = two_record_bank.pools.length + 1 :=
  have h := AllocateDescriptors_grows_when_none_eligible sample_device world_tick_6_waiting
    two_record_bank 16 [record_with 1 true] (record_with 5 false) rfl (by decide)
    (by
      intro j q hj
      cases j with
      | zero =>
        simp at hj
        subst hj
        decide
      | succ k => simp at hj)
    (by decide)
  ⟨(h.1 rfl).1, (h.1 rfl).2.1⟩

/-! ## Which records the driver calls concern -/

theorem Attempt1_calls_record (w : World) (count : Nat) (pools : List PoolData) (ev : Event)
    (h : ev ∈ (DescriptorAllocator.Attempt1 w count pools).calls) :
    ev.record = some (pools.length - 1) ∧ 0 < pools.length := by
  rcases List.eq_nil_or_concat pools with hp | ⟨done, last, hp⟩
  · subst hp
    simp [Attempt1_nil] at h
  · rw [List.concat_eq_append] at hp
    subst hp
    by_cases hok : w.vkAllocateDescriptorSets done.length last.pool.resets = VkResult.VK_SUCCESS
    · rw [Attempt1_ok w count done last hok] at h
      simp only [List.mem_singleton] at h
      subst h
      simp [Event.record]
    · rw [Attempt1_fail w count done last hok] at h
      simp only [List.mem_singleton] at h
      subst h
      simp [Event.record]

theorem Attempt2_calls_record (w : World) (count : Nat) (pools : List PoolData) :
    ∀ index ev, ev ∈ (DescriptorAllocator.Attempt2 w count index pools).calls →
      ∃ j q, ev.record = some (index + j) ∧ pools[j]? = some q ∧
        DescriptorAllocator.eligible w (index + j) q = true := by
  induction pools with
  | nil =>
    intro index ev h
    simp [Attempt2_nil] at h
  | cons p rest ih =>
    intro index ev h
    have hlater : ev ∈ (DescriptorAllocator.Attempt2 w count (index + 1) rest).calls →
        ∃ j q, ev.record = some (index + j) ∧ (p :: rest)[j]? = some q ∧
          DescriptorAllocator.eligible w (index + j) q = true := by
      intro hl
      obtain ⟨j, q, h1, h2, h3⟩ := ih (index + 1) ev hl
      refine ⟨j + 1, q, ?_, by simpa using h2, ?_⟩
      · rw [h1, show index + 1 + j = index + (j + 1) by omega]
      · rwa [show index + 1 + j = index + (j + 1) by omega] at h3
    cases he : DescriptorAllocator.eligible w index p with
    | false =>
      rw [Attempt2_skip w count index p rest he] at h
      exact hlater h
    | true =>
      have hhere : ev.record = some index →
          ∃ j q, ev.record = some (index + j) ∧ (p :: rest)[j]? = some q ∧
            DescriptorAllocator.eligible w (index + j) q = true :=
        fun hr => ⟨0, p, by simpa using hr, by simp, by simpa using he⟩
      by_cases hok : w.vkAllocateDescriptorSets index (p.pool.resets + 1) =
          VkResult.VK_SUCCESS
      · rw [Attempt2_ok w count index p rest he hok] at h
        simp only [List.mem_cons, List.mem_singleton, List.not_mem_nil, or_false] at h
        rcases h with h | h <;> subst h <;> exact hhere rfl
      · rw [Attempt2_fail w count index p rest he hok] at h
        simp only [List.mem_cons] at h
        rcases h with h | h | h
        · subst h
          exact hhere rfl
        · subst h
          exact hhere rfl
        · exact hlater h

theorem earlier_calls_record (w : World) (count : Nat) (bank : DescriptorBank) (ev : Event)
    (h : ev ∈ (DescriptorAllocator.Attempt1 w count bank.pools).calls ++
      (DescriptorAllocator.Attempt2 w count 0
        (DescriptorAllocator.Attempt1 w count bank.pools).pools).calls) :
    ∃ i, ev.record = some i ∧ i < bank.pools.length := by
  rcases List.mem_append.1 h with h1 | h2
  · obtain ⟨hr, hpos⟩ := Attempt1_calls_record w count bank.pools ev h1
    exact ⟨_, hr, by omega⟩
  · obtain ⟨j, q, hr, hq, _⟩ := Attempt2_calls_record w count _ 0 ev h2
    refine ⟨j, by simpa using hr, ?_⟩
    have hlt : j < (DescriptorAllocator.Attempt1 w count bank.pools).pools.length := by
      rcases Nat.lt_or_ge j (DescriptorAllocator.Attempt1 w count bank.pools).pools.length
        with h3 | h3
      · exact h3
      · rw [List.getElem?_eq_none h3] at hq
        cases hq
    rwa [Attempt1_length] at hlt

theorem Attempt3_handles (device : Device) (w : World) (count : Nat) (bank : DescriptorBank) :
    handles (DescriptorAllocator.Attempt3 device w count bank).bank.pools =
      handles bank.pools ++
        (if w.vkCreateDescriptorPool then [AllocatePool.create_info device bank.info]
          else []) ∧
    (DescriptorAllocator.Attempt3 device w count bank).bank.info = bank.info ∧
    (DescriptorAllocator.Attempt3 device w count bank).calls =
      Event.create (AllocatePool.create_info device bank.info) ::
        (if w.vkCreateDescriptorPool then
          [Event.allocate bank.pools.length w.current_tick
            (w.vkAllocateDescriptorSets bank.pools.length 0)]
          else []) := by
  cases hc : w.vkCreateDescriptorPool with
  | false =>
    rw [Attempt3_not_created device w count bank hc]
    simp
  | true =>
    by_cases hok : w.vkAllocateDescriptorSets bank.pools.length 0 = VkResult.VK_SUCCESS
    · rw [Attempt3_ok device w count bank hc hok]
      simp [handles, hok]
    · rw [Attempt3_fail device w count bank hc hok]
      simp [handles]

theorem third_attempt_pools_length (w : World) (count : Nat) (bank : DescriptorBank) :
    (DescriptorAllocator.Attempt2 w count 0
      (DescriptorAllocator.Attempt1 w count bank.pools).pools).pools.length =
      bank.pools.length := by
  rw [Attempt2_length, Attempt1_length]

theorem not_reaches_attempt3 (w : World) (count : Nat) (bank : DescriptorBank)
    (h : ¬ DescriptorAllocator.reaches_attempt3 w count bank) :
    (∃ s, (DescriptorAllocator.Attempt1 w count bank.pools).new_sets = some s) ∨
    ((DescriptorAllocator.Attempt1 w count bank.pools).new_sets = none ∧
      ∃ s, (DescriptorAllocator.Attempt2 w count 0
        (DescriptorAllocator.Attempt1 w count bank.pools).pools).new_sets = some s) := by
  cases h1 : (DescriptorAllocator.Attempt1 w count bank.pools).new_sets with
  | some s => exact Or.inl ⟨s, rfl⟩
  | none =>
    cases h2 : (DescriptorAllocator.Attempt2 w count 0
        (DescriptorAllocator.Attempt1 w count bank.pools).pools).new_sets with
    | some s => exact Or.inr ⟨rfl, s, rfl⟩
    | none => exact absurd ⟨h1, h2⟩ h

theorem AllocateDescriptors_without_third (device : Device) (w : World)
    (bank : DescriptorBank) (count : Nat)
    (h : ¬ DescriptorAllocator.reaches_attempt3 w count bank) :
    (∃ s, (DescriptorAllocator.AllocateDescriptors device w bank count).ret = Except.ok s) ∧
    handles (DescriptorAllocator.AllocateDescriptors device w bank count).bank.pools =
      handles bank.pools ∧
    (DescriptorAllocator.AllocateDescriptors device w bank count).bank.info = bank.info ∧
    (∀ ev ∈ (DescriptorAllocator.AllocateDescriptors device w bank count).calls,
      ∃ i, ev.record = some i ∧ i < bank.pools.length) := by
  rcases not_reaches_attempt3 w count bank h with ⟨s, h1⟩ | ⟨h1, s, h2⟩
  · rw [AllocateDescriptors_of_first device w bank count s h1]
    refine ⟨⟨s, rfl⟩, Attempt1_handles w count bank.pools, rfl, ?_⟩
    intro ev hev
    exact earlier_calls_record w count bank ev (List.mem_append_left _ hev)
  · rw [AllocateDescriptors_of_second device w bank count s h1 h2]
    refine ⟨⟨s, rfl⟩, ?_, rfl, ?_⟩
    · show handles (DescriptorAllocator.Attempt2 w count 0 _).pools = _
      rw [Attempt2_handles, Attempt1_handles]
    · intro ev hev
      exact earlier_calls_record w count bank ev hev

theorem AllocateDescriptors_with_third (device : Device) (w : World)
    (bank : DescriptorBank) (count : Nat)
    (h : DescriptorAllocator.reaches_attempt3 w count bank) :
    handles (DescriptorAllocator.AllocateDescriptors device w bank count).bank.pools =
      handles bank.pools ++
        (if w.vkCreateDescriptorPool then [AllocatePool.create_info device bank.info]
          else []) ∧
    (DescriptorAllocator.AllocateDescriptors device w bank count).bank.info = bank.info ∧
    (DescriptorAllocator.AllocateDescriptors device w bank count).calls =
      (DescriptorAllocator.Attempt1 w count bank.pools).calls ++
        (DescriptorAllocator.Attempt2 w count 0
          (DescriptorAllocator.Attempt1 w count bank.pools).pools).calls ++
        Event.create (AllocatePool.create_info device bank.info) ::
          (if w.vkCreateDescriptorPool then
            [Event.allocate bank.pools.length w.current_tick
              (w.vkAllocateDescriptorSets bank.pools.length 0)]
            else []) ∧
    (w.vkCreateDescriptorPool = true →
      w.vkAllocateDescriptorSets bank.pools.length 0 = VkResult.VK_SUCCESS →
      ∃ s, (DescriptorAllocator.AllocateDescriptors device w bank count).ret = Except.ok s ∧
        s.pool = bank.pools.length ∧ s.generation = 0) ∧
    (w.vkCreateDescriptorPool = true →
      w.vkAllocateDescriptorSets bank.pools.length 0 ≠ VkResult.VK_SUCCESS →
      (DescriptorAllocator.AllocateDescriptors device w bank count).ret =
        Except.error (vk.Exception.allocation
          (w.vkAllocateDescriptorSets bank.pools.length 0))) ∧
    (w.vkCreateDescriptorPool = false →
      (DescriptorAllocator.AllocateDescriptors device w bank count).ret =
        Except.error vk.Exception.creation) := by
  have hlen := third_attempt_pools_length w count bank
  obtain ⟨a1, a2, a3⟩ := Attempt3_handles device w count
    { info := bank.info,
      pools := (DescriptorAllocator.Attempt2 w count 0
        (DescriptorAllocator.Attempt1 w count bank.pools).pools).pools }
  simp only [hlen] at a3
  rw [AllocateDescriptors_of_third device w bank count h]
  refine ⟨?_, a2, ?_, ?_, ?_, ?_⟩
  · show handles (DescriptorAllocator.Attempt3 device w count _).bank.pools = _
    rw [a1]
    show handles (DescriptorAllocator.Attempt2 w count 0 _).pools ++ _ = _
    rw [Attempt2_handles, Attempt1_handles]
  · show _ ++ _ ++ (DescriptorAllocator.Attempt3 device w count _).calls = _
    rw [a3]
  · intro hc hok
    have h3 := Attempt3_ok device w count
      { info := bank.info,
        pools := (DescriptorAllocator.Attempt2 w count 0
          (DescriptorAllocator.Attempt1 w count bank.pools).pools).pools }
      hc (by simpa only [hlen] using hok)
    show ∃ s, (DescriptorAllocator.Attempt3 device w count _).ret = Except.ok s ∧ _
    rw [h3]
    exact ⟨_, rfl, hlen, rfl⟩
  · intro hc hfail
    have h3 := Attempt3_fail device w count
      { info := bank.info,
        pools := (DescriptorAllocator.Attempt2 w count 0
          (DescriptorAllocator.Attempt1 w count bank.pools).pools).pools }
      hc (by simpa only [hlen] using hfail)
    show (DescriptorAllocator.Attempt3 device w count _).ret = _
    rw [h3]
    simp only [hlen]
  · intro hc
    show (DescriptorAllocator.Attempt3 device w count _).ret = _
    rw [Attempt3_not_created device w count _ hc]

theorem handles_getElem (pools later : List PoolData)
    (extra : List VkDescriptorPoolCreateInfo) (h : handles later = handles pools ++ extra)
    (i : Nat) (p : PoolData) (hp : pools[i]? = some p) :
    ∃ q, later[i]? = some q ∧ q.pool.create_info = p.pool.create_info := by
  have hi : i < pools.length := by
    rcases Nat.lt_or_ge i pools.length with h1 | h1
    · exact h1
    · rw [List.getElem?_eq_none h1] at hp
      cases hp
  have h1 : (handles later)[i]? = some p.pool.create_info := by
    rw [h, List.getElem?_append_left (by rw [handles_length]; exact hi)]
    simp [handles, hp]
  simp only [handles, List.getElem?_map, Option.map_eq_some'] at h1
  exact h1

/-! ## Claims about failure and growth -/

/-- Claim C15: `AllocateDescriptors` fails with the driver's result code `e`
exactly when the third attempt is reached, the driver creates the pool and its
answer to the one allocation against the new pool is the capacity error `e`;
the only other failure is the creation error, thrown exactly when the third
attempt is reached and the driver does not create the pool (the model has no
failing reset).  Hence, when the driver never fails to create a pool, the call
fails exactly when the third attempt is reached and the allocation against the
new pool reports a capacity error.  When the third attempt is reached the
driver calls end with the creation and, if the pool was created, that single
allocation, all earlier calls concerning pre-existing records; when it is not
reached the call returns sets, whatever capacity errors pre-existing records
reported. -/
theorem AllocateDescriptors_fails_only_on_new_pool (device : Device) (w : World)
    (bank : DescriptorBank) (count : Nat) :
    (∀ e, (DescriptorAllocator.AllocateDescriptors device w bank count).ret =
        Except.error (vk.Exception.allocation e) ↔
      (DescriptorAllocator.reaches_attempt3 w count bank ∧ w.vkCreateDescriptorPool = true ∧
        w.vkAllocateDescriptorSets bank.pools.length 0 = e ∧ e ≠ VkResult.VK_SUCCESS)) ∧
    ((DescriptorAllocator.AllocateDescriptors device w bank count).ret =
        Except.error vk.Exception.creation ↔
      (DescriptorAllocator.reaches_attempt3 w count bank ∧ w.vkCreateDescriptorPool = false)) ∧
    (w.vkCreateDescriptorPool = true →
      ((∃ x, (DescriptorAllocator.AllocateDescriptors device w bank count).ret =
          Except.error x) ↔
        (DescriptorAllocator.reaches_attempt3 w count bank ∧
          w.vkAllocateDescriptorSets bank.pools.length 0 ≠ VkResult.VK_SUCCESS))) ∧
    (DescriptorAllocator.reaches_attempt3 w count bank →
      ∃ earlier, (DescriptorAllocator.AllocateDescriptors device w bank count).calls =
        earlier ++ Event.create (AllocatePool.create_info device bank.info) ::
          (if w.vkCreateDescriptorPool then
            [Event.allocate bank.pools.length w.current_tick
              (w.vkAllocateDescriptorSets bank.pools.length 0)]
            else []) ∧
        ∀ ev ∈ earlier, ∃ i, ev.record = some i ∧ i < bank.pools.length) ∧
    (¬ DescriptorAllocator.reaches_attempt3 w count bank →
      (∃ s, (DescriptorAllocator.AllocateDescriptors device w bank count).ret = Except.ok s) ∧
      ∀ ev ∈ (DescriptorAllocator.AllocateDescriptors device w bank count).calls,
        ∃ i, ev.record = some i ∧ i < bank.pools.length) := by
  have hthird : ∀ x, (DescriptorAllocator.AllocateDescriptors device w bank count).ret =
      Except.error x → DescriptorAllocator.reaches_attempt3 w count bank := by
    intro x herr
    by_cases hr : DescriptorAllocator.reaches_attempt3 w count bank
    · exact hr
    · obtain ⟨⟨s, hs⟩, _⟩ := AllocateDescriptors_without_third device w bank count hr
      rw [hs] at herr
      cases herr
  have hfirst : ∀ e, (DescriptorAllocator.AllocateDescriptors device w bank count).ret =
        Except.error (vk.Exception.allocation e) ↔
      (DescriptorAllocator.reaches_attempt3 w count bank ∧ w.vkCreateDescriptorPool = true ∧
        w.vkAllocateDescriptorSets bank.pools.length 0 = e ∧ e ≠ VkResult.VK_SUCCESS) := by
    intro e
    constructor
    · intro herr
      have hr := hthird _ herr
      obtain ⟨_, _, _, hok, hfail, hnone⟩ :=
        AllocateDescriptors_with_third device w bank count hr
      cases hc : w.vkCreateDescriptorPool with
      | false =>
        rw [hnone hc] at herr
        cases herr
      | true =>
        by_cases ha : w.vkAllocateDescriptorSets bank.pools.length 0 = VkResult.VK_SUCCESS
        · obtain ⟨s, hs, _⟩ := hok hc ha
          rw [hs] at herr
          cases herr
        · have h3 := hfail hc ha
          rw [h3] at herr
          injection herr with he
          injection he with he
          exact ⟨hr, rfl, he, by rw [← he]; exact ha⟩
    · rintro ⟨hr, hc, he, hne⟩
      obtain ⟨_, _, _, _, hfail, _⟩ := AllocateDescriptors_with_third device w bank count hr
      rw [hfail hc (by rw [he]; exact hne), he]
  have hsecond : (DescriptorAllocator.AllocateDescriptors device w bank count).ret =
        Except.error vk.Exception.creation ↔
      (DescriptorAllocator.reaches_attempt3 w count bank ∧
        w.vkCreateDescriptorPool = false) := by
    constructor
    · intro herr
      have hr := hthird _ herr
      obtain ⟨_, _, _, hok, hfail, _⟩ := AllocateDescriptors_with_third device w bank count hr
      cases hc : w.vkCreateDescriptorPool with
      | false => exact ⟨hr, rfl⟩
      | true =>
        by_cases ha : w.vkAllocateDescriptorSets bank.pools.length 0 = VkResult.VK_SUCCESS
        · obtain ⟨s, hs, _⟩ := hok hc ha
          rw [hs] at herr
          cases herr
        · rw [hfail hc ha] at herr
          injection herr with he
          cases he
    · rintro ⟨hr, hc⟩
      exact (AllocateDescriptors_with_third device w bank count hr).2.2.2.2.2 hc
  refine ⟨hfirst, hsecond, ?_, ?_, ?_⟩
  · intro hc
    constructor
    · rintro ⟨x, herr⟩
      cases x with
      | allocation e =>
        obtain ⟨hr, _, he, hne⟩ := (hfirst e).1 herr
        exact ⟨hr, by rw [he]; exact hne⟩
      | creation =>
        have h2 := (hsecond.1 herr).2
        rw [hc] at h2
        cases h2
    · rintro ⟨hr, hne⟩
      exact ⟨_, (hfirst _).2 ⟨hr, hc, rfl, hne⟩⟩
  · intro hr
    obtain ⟨_, _, hcalls, _, _⟩ := AllocateDescriptors_with_third device w bank count hr
    exact ⟨_, hcalls, fun ev hev => earlier_calls_record w count bank ev hev⟩
  · intro hr
    obtain ⟨hs, _, _, hev⟩ := AllocateDescriptors_without_third device w bank count hr
    exact ⟨hs, hev⟩

/-- Witness of `AllocateDescriptors_fails_only_on_new_pool`: on the bank with
two records, nothing completed and a driver that creates the pool but refuses
every allocation, the call fails with the result code of the new pool. -/
theorem AllocateDescriptors_fails_only_on_new_pool_witness :
    DescriptorAllocator.reaches_attempt3 world_tick_6_exhausted 16 two_record_bank ∧
    world_tick_6_exhausted.vkCreateDescriptorPool = true ∧
    (DescriptorAllocator.AllocateDescriptors sample_device world_tick_6_exhausted
      two_record_bank 16).ret =
      Except.error (vk.Exception.allocation VkResult.VK_ERROR_OUT_OF_POOL_MEMORY) :=
  have hr : DescriptorAllocator.reaches_attempt3 world_tick_6_exhausted 16 two_record_bank :=
    ⟨by decide, by decide⟩
  ⟨hr, rfl, ((AllocateDescriptors_fails_only_on_new_pool sample_device world_tick_6_exhausted
    two_record_bank 16).1 VkResult.VK_ERROR_OUT_OF_POOL_MEMORY).2
      ⟨hr, rfl, by decide, by decide⟩⟩

/-- Claim C16 fails as stated: on the bank with two records, nothing completed
and every pool full, the third attempt is reached (the first attempt fails and
the second finds no eligible record), but the driver cannot create a pool:
the call fails and the bank still has two records. -/
theorem third_attempt_without_growth :
    DescriptorAllocator.reaches_attempt3 world_tick_6_no_pool 16 two_record_bank ∧
    (DescriptorAllocator.AllocateDescriptors sample_device world_tick_6_no_pool
      two_record_bank 16).bank.pools.length = two_record_bank.pools.length ∧
    Event.create (AllocatePool.create_info sample_device four_uniform_buffers) ∈
      (DescriptorAllocator.AllocateDescriptors sample_device world_tick_6_no_pool
        two_record_bank 16).calls :=
  ⟨⟨by decide, by decide⟩, by decide, by decide⟩

/-- Claim C16 as amended: every `AllocateDescriptors` call, whether it returns
sets or fails, leaves the number of records unchanged or increased by exactly
one, never decreased; it increases exactly when the third attempt is reached
and the driver creates the pool; the third attempt is reached exactly when a
pool creation is among the driver calls; every pre-existing record keeps its
position and its pool handle, and the bank keeps its info. -/
theorem AllocateDescriptors_record_count (device : Device) (w : World)
    (bank : DescriptorBank) (count : Nat) :
    ((DescriptorAllocator.AllocateDescriptors device w bank count).bank.pools.length =
        bank.pools.length ∨
      (DescriptorAllocator.AllocateDescriptors device w bank count).bank.pools.length =
        bank.pools.length + 1) ∧
    bank.pools.length ≤
      (DescriptorAllocator.AllocateDescriptors device w bank count).bank.pools.length ∧
    ((DescriptorAllocator.AllocateDescriptors device w bank count).bank.pools.length =
        bank.pools.length + 1 ↔
      (DescriptorAllocator.reaches_attempt3 w count bank ∧ w.vkCreateDescriptorPool = true)) ∧
    (DescriptorAllocator.reaches_attempt3 w count bank ↔
      ∃ info, Event.create info ∈
        (DescriptorAllocator.AllocateDescriptors device w bank count).calls) ∧
    (∀ (i : Nat) (p : PoolData), bank.pools[i]? = some p →
      ∃ q : PoolData,
        (DescriptorAllocator.AllocateDescriptors device w bank count).bank.pools[i]? =
          some q ∧ q.pool.create_info = p.pool.create_info) ∧
    (DescriptorAllocator.AllocateDescriptors device w bank count).bank.info = bank.info := by
  by_cases hr : DescriptorAllocator.reaches_attempt3 w count bank
  · obtain ⟨hh, hinfo, hcalls, _, _⟩ := AllocateDescriptors_with_third device w bank count hr
    have hlen := congrArg List.length hh
    simp only [handles_length, List.length_append] at hlen
    have hcreate : ∃ info, Event.create info ∈
        (DescriptorAllocator.AllocateDescriptors device w bank count).calls :=
      ⟨AllocatePool.create_info device bank.info, by rw [hcalls]; simp⟩
    cases hc : w.vkCreateDescriptorPool with
    | true =>
      simp only [hc, if_true, List.length_singleton] at hlen
      exact ⟨Or.inr hlen, by omega, ⟨fun _ => ⟨hr, rfl⟩, fun _ => hlen⟩,
        ⟨fun _ => hcreate, fun _ => hr⟩,
        fun i p hp => handles_getElem _ _ _ hh i p hp, hinfo⟩
    | false =>
      simp only [hc, Bool.false_eq_true, if_false, List.length_nil, Nat.add_zero] at hlen
      refine ⟨Or.inl hlen, by omega, ⟨fun h => by omega, fun h => ?_⟩,
        ⟨fun _ => hcreate, fun _ => hr⟩,
        fun i p hp => handles_getElem _ _ _ hh i p hp, hinfo⟩
      cases h.2
  · obtain ⟨_, hh, hinfo, hev⟩ := AllocateDescriptors_without_third device w bank count hr
    have hlen := congrArg List.length hh
    simp only [handles_length] at hlen
    refine ⟨Or.inl hlen, by omega, ⟨fun h => by omega, fun h => absurd h.1 hr⟩,
      ⟨fun h => absurd h hr, ?_⟩,
      fun i p hp => handles_getElem _ _ [] (by simpa using hh) i p hp, hinfo⟩
    rintro ⟨info, hmem⟩
    obtain ⟨i, hi, _⟩ := hev _ hmem
    simp [Event.record] at hi

/-- Witness of `AllocateDescriptors_record_count`: the failing call on the
bank with two records, the driver creating the pool and refusing every
allocation, still appends one record. -/
theorem AllocateDescriptors_record_count_witness :
    DescriptorAllocator.reaches_attempt3 world_tick_6_exhausted 16 two_record_bank ∧
    world_tick_6_exhausted.vkCreateDescriptorPool = true ∧
    (DescriptorAllocator.AllocateDescriptors sample_device world_tick_6_exhausted
      two_record_bank 16).bank.pools.length = two_record_bank.pools.length + 1 :=
  have hr : DescriptorAllocator.reaches_attempt3 world_tick_6_exhausted 16 two_record_bank :=
    ⟨by decide, by decide⟩
  ⟨hr, rfl, (AllocateDescriptors_record_count sample_device world_tick_6_exhausted
    two_record_bank 16).2.2.1.2 ⟨hr, rfl⟩⟩

/-! ## The scan of the second attempt -/

theorem Attempt2_scan (w : World) (count : Nat) (rest : List PoolData) (pre : List PoolData) :
    ∀ index, (∀ j q, pre[j]? = some q → DescriptorAllocator.eligible w (index + j) q = true →
        w.vkAllocateDescriptorSets (index + j) (q.pool.resets + 1) ≠ VkResult.VK_SUCCESS) →
      DescriptorAllocator.Attempt2 w count index (pre ++ rest) =
        { pools := sweep w index pre ++
            (DescriptorAllocator.Attempt2 w count (index + pre.length) rest).pools,
          calls := sweep_calls w index pre ++
            (DescriptorAllocator.Attempt2 w count (index + pre.length) rest).calls,
          new_sets := (DescriptorAllocator.Attempt2 w count (index + pre.length) rest).new_sets } := by
  induction pre with
  | nil =>
    intro index _
    simp [sweep, sweep_calls]
  | cons q pre ih =>
    intro index hpre
    have hlen : index + (q :: pre).length = index + 1 + pre.length := by
      simp only [List.length_cons]
      omega
    have h := ih (index + 1)
      (fun j r hj he => by
        have := hpre (j + 1) r (by simpa using hj)
          (by rwa [show index + (j + 1) = index + 1 + j by omega])
        rwa [show index + (j + 1) = index + 1 + j by omega] at this)
    rw [hlen, List.cons_append]
    cases he : DescriptorAllocator.eligible w index q with
    | false =>
      rw [Attempt2_skip w count index q _ he, h]
      simp [sweep, sweep_calls, swept, he]
    | true =>
      have hf := hpre 0 q (by simp) (by simpa using he)
      rw [Nat.add_zero] at hf
      rw [Attempt2_fail w count index q _ he hf, h]
      simp [sweep, sweep_calls, swept, he]

theorem Attempt2_some_split (w : World) (count : Nat) (pools : List PoolData) :
    ∀ index s, (DescriptorAllocator.Attempt2 w count index pools).new_sets = some s →
      ∃ pre p post, pools = pre ++ p :: post ∧
        (∀ j q, pre[j]? = some q → DescriptorAllocator.eligible w (index + j) q = true →
          w.vkAllocateDescriptorSets (index + j) (q.pool.resets + 1) ≠ VkResult.VK_SUCCESS) ∧
        DescriptorAllocator.eligible w (index + pre.length) p = true ∧
        w.vkAllocateDescriptorSets (index + pre.length) (p.pool.resets + 1) =
          VkResult.VK_SUCCESS := by
  induction pools with
  | nil =>
    intro index s h
    simp [Attempt2_nil] at h
  | cons p rest ih =>
    intro index s h
    have hlater : (DescriptorAllocator.Attempt2 w count (index + 1) rest).new_sets = some s →
        (DescriptorAllocator.eligible w index p = true →
          w.vkAllocateDescriptorSets index (p.pool.resets + 1) ≠ VkResult.VK_SUCCESS) →
        ∃ pre q post, p :: rest = pre ++ q :: post ∧
          (∀ j r, pre[j]? = some r → DescriptorAllocator.eligible w (index + j) r = true →
            w.vkAllocateDescriptorSets (index + j) (r.pool.resets + 1) ≠
              VkResult.VK_SUCCESS) ∧
          DescriptorAllocator.eligible w (index + pre.length) q = true ∧
          w.vkAllocateDescriptorSets (index + pre.length) (q.pool.resets + 1) =
            VkResult.VK_SUCCESS := by
      intro hs hp
      obtain ⟨pre, q, post, h1, h2, h3, h4⟩ := ih (index + 1) s hs
      refine ⟨p :: pre, q, post, by rw [h1]; rfl, ?_, ?_, ?_⟩
      · intro j r hj he
        cases j with
        | zero =>
          simp at hj
          subst hj
          exact hp he
        | succ k =>
          have := h2 k r (by simpa using hj)
            (by rwa [show index + 1 + k = index + (k + 1) by omega])
          rwa [show index + 1 + k = index + (k + 1) by omega] at this
      · rwa [show index + (p :: pre).length = index + 1 + pre.length by
          simp only [List.length_cons]; omega]
      · rwa [show index + (p :: pre).length = index + 1 + pre.length by
          simp only [List.length_cons]; omega]
    cases hp : DescriptorAllocator.eligible w index p with
    | false =>
      rw [Attempt2_skip w count index p rest hp] at h
      exact hlater h (fun hc => by simp [hp] at hc)
    | true =>
      by_cases hok : w.vkAllocateDescriptorSets index (p.pool.resets + 1) =
          VkResult.VK_SUCCESS
      · exact ⟨[], p, rest, rfl, by intro j q hj; simp at hj, by simpa using hp,
          by simpa using hok⟩
      · rw [Attempt2_fail w count index p rest hp hok] at h
        exact hlater h (fun _ => hok)

theorem Attempt3_pools (device : Device) (w : World) (count : Nat) (bank : DescriptorBank) :
    (w.vkCreateDescriptorPool = true →
      ∃ fresh, (DescriptorAllocator.Attempt3 device w count bank).bank.pools =
        bank.pools ++ [fresh]) ∧
    (w.vkCreateDescriptorPool = false →
      (DescriptorAllocator.Attempt3 device w count bank).bank.pools = bank.pools) := by
  constructor
  · intro hc
    by_cases hok : w.vkAllocateDescriptorSets bank.pools.length 0 = VkResult.VK_SUCCESS
    · rw [Attempt3_ok device w count bank hc hok]
      exact ⟨_, rfl⟩
    · rw [Attempt3_fail device w count bank hc hok]
      exact ⟨_, rfl⟩
  · intro hc
    rw [Attempt3_not_created device w count bank hc]

theorem Allocate_size (pool : vk.DescriptorPool) (w : World) (index count : Nat)
    (h : (pool.Allocate w index count).result = VkResult.VK_SUCCESS) :
    (pool.Allocate w index count).size = count % U32_SIZE := by
  have h2 : w.vkAllocateDescriptorSets index pool.resets = VkResult.VK_SUCCESS := h
  simp [vk.DescriptorPool.Allocate, h2]

theorem Attempt1_new_sets_size (w : World) (count : Nat) (pools : List PoolData)
    (s : vk.DescriptorSets)
    (h : (DescriptorAllocator.Attempt1 w count pools).new_sets = some s) :
    s.size = count % U32_SIZE := by
  rcases List.eq_nil_or_concat pools with hp | ⟨done, last, hp⟩
  · subst hp
    simp [Attempt1_nil] at h
  · rw [List.concat_eq_append] at hp
    subst hp
    by_cases hok : w.vkAllocateDescriptorSets done.length last.pool.resets = VkResult.VK_SUCCESS
    · rw [Attempt1_ok w count done last hok] at h
      injection h with h
      subst h
      exact Allocate_size _ w _ count hok
    · rw [Attempt1_fail w count done last hok] at h
      cases h

theorem Attempt2_new_sets_size (w : World) (count : Nat) (pools : List PoolData)
    (index : Nat) (s : vk.DescriptorSets)
    (h : (DescriptorAllocator.Attempt2 w count index pools).new_sets = some s) :
    s.size = count % U32_SIZE := by
  obtain ⟨pre, p, post, hsplit, hpre, hp, hok⟩ := Attempt2_some_split w count pools index s h
  have hscan := Attempt2_scan w count (p :: post) pre index hpre
  rw [Attempt2_ok w count (index + pre.length) p post hp hok, ← hsplit] at hscan
  rw [hscan] at h
  injection h with h
  subst h
  exact Allocate_size _ w _ count hok

theorem AllocateDescriptors_size (device : Device) (w : World) (bank : DescriptorBank)
    (count : Nat) (s : vk.DescriptorSets)
    (h : (DescriptorAllocator.AllocateDescriptors device w bank count).ret = Except.ok s) :
    s.size = count % U32_SIZE := by
  by_cases hr : DescriptorAllocator.reaches_attempt3 w count bank
  · rw [AllocateDescriptors_of_third device w bank count hr] at h
    cases hc : w.vkCreateDescriptorPool with
    | false =>
      simp only [Attempt3_not_created device w count _ hc] at h
      cases h
    | true =>
      by_cases hok : w.vkAllocateDescriptorSets
          (DescriptorAllocator.Attempt2 w count 0
            (DescriptorAllocator.Attempt1 w count bank.pools).pools).pools.length 0 =
          VkResult.VK_SUCCESS
      · have h3 := Attempt3_ok device w count
          { info := bank.info,
            pools := (DescriptorAllocator.Attempt2 w count 0
              (DescriptorAllocator.Attempt1 w count bank.pools).pools).pools } hc hok
        simp only [h3, Except.ok.injEq] at h
        subst h
        exact Allocate_size _ w _ count hok
      · have h3 := Attempt3_fail device w count
          { info := bank.info,
            pools := (DescriptorAllocator.Attempt2 w count 0
              (DescriptorAllocator.Attempt1 w count bank.pools).pools).pools } hc hok
        simp only [h3] at h
        cases h
  · rcases not_reaches_attempt3 w count bank hr with ⟨s1, h1⟩ | ⟨h1, s2, h2⟩
    · rw [AllocateDescriptors_of_first device w bank count s1 h1] at h
      injection h with h
      subst h
      exact Attempt1_new_sets_size w count bank.pools s1 h1
    · rw [AllocateDescriptors_of_second device w bank count s2 h1 h2] at h
      injection h with h
      subst h
      exact Attempt2_new_sets_size w count _ 0 s2 h2

theorem chunk_lookup (sets : List vk.DescriptorSets) (index : Nat)
    (hfull : ∀ c ∈ sets, c.size = SETS_GROW_RATE)
    (hindex : index < SETS_GROW_RATE * sets.length) :
    ∃ chunk, sets[index / SETS_GROW_RATE]? = some chunk ∧
      index % SETS_GROW_RATE < chunk.size ∧
      sets[index / SETS_GROW_RATE]?.bind
        (fun chunk => chunk.get? (index % SETS_GROW_RATE)) =
        some { pool := chunk.pool, generation := chunk.generation,
               slot := index % SETS_GROW_RATE } := by
  have hdiv : index / SETS_GROW_RATE < sets.length := by
    apply Nat.div_lt_of_lt_mul
    exact hindex
  have hsize : sets[index / SETS_GROW_RATE].size = SETS_GROW_RATE :=
    hfull _ (List.getElem_mem _)
  have hmod : index % SETS_GROW_RATE < sets[index / SETS_GROW_RATE].size := by
    rw [hsize]
    exact Nat.mod_lt _ (by decide)
  refine ⟨sets[index / SETS_GROW_RATE], List.getElem?_eq_getElem hdiv, hmod, ?_⟩
  rw [List.getElem?_eq_getElem hdiv]
  simp [vk.DescriptorSets.get?, hmod]

/-- Claim C18: a growth request `Allocate(begin, end)` with `end - begin = 16`
whose allocation succeeds appends exactly one chunk, of 16 sets, and keeps the
earlier chunks as they were.  Whatever index `CommitResource` hands back, if
every materialized chunk holds 16 sets and the index is below 16 times the
number of chunks, `Commit` returns element `index mod 16` of chunk
`index div 16`, and that element is in bounds.  Distinct indices designate
distinct (chunk, element) slots. -/
theorem Commit_returns_slot_of_chunk (device : Device) (w : World) (bank : DescriptorBank)
    (self : DescriptorAllocator) :
    (∀ first last s, last - first = SETS_GROW_RATE →
      (DescriptorAllocator.AllocateDescriptors device w bank (last - first)).ret =
        Except.ok s →
      (DescriptorAllocator.Allocate device w bank self first last).allocator.sets =
        self.sets ++ [s] ∧
      s.size = SETS_GROW_RATE ∧
      (DescriptorAllocator.Allocate device w bank self first last).ret = Except.ok () ∧
      (∀ k, k < self.sets.length →
        (DescriptorAllocator.Allocate device w bank self first last).allocator.sets[k]? =
          self.sets[k]?)) ∧
    (∀ index,
      (DescriptorAllocator.CommitResource device w bank self).ret = Except.ok index →
      (∀ c ∈ (DescriptorAllocator.CommitResource device w bank self).allocator.sets,
        c.size = SETS_GROW_RATE) →
      index < SETS_GROW_RATE *
        (DescriptorAllocator.CommitResource device w bank self).allocator.sets.length →
      ∃ chunk,
        (DescriptorAllocator.CommitResource device w bank self).allocator.sets[
          index / SETS_GROW_RATE]? = some chunk ∧
        index % SETS_GROW_RATE < chunk.size ∧
        (DescriptorAllocator.Commit device w bank self).ret =
          Except.ok (some { pool := chunk.pool, generation := chunk.generation,
                            slot := index % SETS_GROW_RATE }) ∧
        (DescriptorAllocator.Commit device w bank self).allocator =
          (DescriptorAllocator.CommitResource device w bank self).allocator) ∧
    (∀ i j : Nat, i ≠ j →
      (i / SETS_GROW_RATE, i % SETS_GROW_RATE) ≠ (j / SETS_GROW_RATE, j % SETS_GROW_RATE)) := by
  refine ⟨?_, ?_, ?_⟩
  · intro first last s hlen hs
    have hsize := AllocateDescriptors_size device w bank (last - first) s hs
    rw [hlen] at hsize
    refine ⟨by simp [DescriptorAllocator.Allocate, hs], by rw [hsize]; decide,
      by simp [DescriptorAllocator.Allocate, hs], ?_⟩
    intro k hk
    simp [DescriptorAllocator.Allocate, hs, List.getElem?_append_left hk]
  · intro index hindex hfull hlt
    obtain ⟨chunk, h1, h2, h3⟩ := chunk_lookup _ index hfull hlt
    refine ⟨chunk, h1, h2, ?_, ?_⟩
    · simp only [DescriptorAllocator.Commit, hindex]
      rw [h3]
    · simp only [DescriptorAllocator.Commit, hindex]
  · intro i j hij heq
    simp only [SETS_GROW_RATE, Prod.mk.injEq] at heq
    omega

/-- Witness of `Commit_returns_slot_of_chunk`: the first commit of a fresh
allocator; the index handed back is 0, the one chunk holds 16 sets, and
`Commit` returns element 0 of chunk 0. -/
theorem Commit_returns_slot_of_chunk_witness :
    (DescriptorAllocator.CommitResource sample_device world_tick_1 sample_bank
      fresh_allocator).ret = Except.ok 0 ∧
    ∃ chunk,
      (DescriptorAllocator.CommitResource sample_device world_tick_1 sample_bank
        fresh_allocator).allocator.sets[0 / SETS_GROW_RATE]? = some chunk ∧
      0 % SETS_GROW_RATE < chunk.size ∧
      (DescriptorAllocator.Commit sample_device world_tick_1 sample_bank fresh_allocator).ret =
        Except.ok (some { pool := chunk.pool, generation := chunk.generation,
                          slot := 0 % SETS_GROW_RATE }) := by
  refine ⟨rfl, ?_⟩
  obtain ⟨chunk, h1, h2, h3, _⟩ :=
    (Commit_returns_slot_of_chunk sample_device world_tick_1 sample_bank fresh_allocator).2.1
      0 rfl (by decide) (by decide)
  exact ⟨chunk, h1, h2, h3⟩

/-! ## Records that are neither last nor flagged -/

theorem eligible_of_not_flagged (w : World) (index : Nat) (q : PoolData)
    (h : q.previously_out_of_memory = false) :
    DescriptorAllocator.eligible w index q = false := by
  simp [DescriptorAllocator.eligible, h]

theorem Attempt1_untouched (w : World) (count : Nat) (pools : List PoolData) (i : Nat)
    (hi : i + 1 < pools.length) :
    (DescriptorAllocator.Attempt1 w count pools).pools[i]? = pools[i]? := by
  rcases List.eq_nil_or_concat pools with hp | ⟨done, last, hp⟩
  · subst hp
    rfl
  · rw [List.concat_eq_append] at hp
    subst hp
    have hlt : i < done.length := by
      simp only [List.length_append, List.length_singleton] at hi
      omega
    by_cases hok : w.vkAllocateDescriptorSets done.length last.pool.resets = VkResult.VK_SUCCESS
    · rw [Attempt1_ok w count done last hok]
      simp [List.getElem?_append_left hlt]
    · rw [Attempt1_fail w count done last hok]
      simp [List.getElem?_append_left hlt]

theorem Attempt2_untouched (w : World) (count : Nat) (pools : List PoolData) :
    ∀ index j q, pools[j]? = some q → DescriptorAllocator.eligible w (index + j) q = false →
      (DescriptorAllocator.Attempt2 w count index pools).pools[j]? = some q := by
  induction pools with
  | nil =>
    intro index j q hj
    simp at hj
  | cons p rest ih =>
    intro index j q hj he
    have hlater : ∀ k, j = k + 1 →
        (p :: (DescriptorAllocator.Attempt2 w count (index + 1) rest).pools)[j]? = some q ∧
        ∀ x : PoolData,
          (x :: (DescriptorAllocator.Attempt2 w count (index + 1) rest).pools)[j]? = some q := by
      intro k hk
      subst hk
      have h := ih (index + 1) k q (by simpa using hj)
        (by rwa [show index + 1 + k = index + (k + 1) by omega])
      exact ⟨by simpa using h, fun x => by simpa using h⟩
    cases hp : DescriptorAllocator.eligible w index p with
    | false =>
      rw [Attempt2_skip w count index p rest hp]
      cases j with
      | zero => simpa using hj
      | succ k => exact (hlater k rfl).1
    | true =>
      cases j with
      | zero =>
        simp at hj
        subst hj
        rw [Nat.add_zero, hp] at he
        cases he
      | succ k =>
        by_cases hok : w.vkAllocateDescriptorSets index (p.pool.resets + 1) =
            VkResult.VK_SUCCESS
        · rw [Attempt2_ok w count index p rest hp hok]
          simpa using hj
        · rw [Attempt2_fail w count index p rest hp hok]
          exact (hlater k rfl).2 _

theorem AllocateDescriptors_untouched (device : Device) (w : World) (bank : DescriptorBank)
    (count : Nat) (i : Nat) (p : PoolData) (hp : bank.pools[i]? = some p)
    (hflag : p.previously_out_of_memory = false) (hlast : i + 1 < bank.pools.length) :
    (DescriptorAllocator.AllocateDescriptors device w bank count).bank.pools[i]? = some p ∧
    i + 1 < (DescriptorAllocator.AllocateDescriptors device w bank count).bank.pools.length ∧
    ∀ ev ∈ (DescriptorAllocator.AllocateDescriptors device w bank count).calls,
      ev.record ≠ some i := by
  have h1 : (DescriptorAllocator.Attempt1 w count bank.pools).pools[i]? = some p := by
    rw [Attempt1_untouched w count bank.pools i hlast, hp]
  have h2 : (DescriptorAllocator.Attempt2 w count 0
      (DescriptorAllocator.Attempt1 w count bank.pools).pools).pools[i]? = some p :=
    Attempt2_untouched w count _ 0 i p h1 (eligible_of_not_flagged w _ p hflag)
  have hev : ∀ ev ∈ (DescriptorAllocator.Attempt1 w count bank.pools).calls ++
      (DescriptorAllocator.Attempt2 w count 0
        (DescriptorAllocator.Attempt1 w count bank.pools).pools).calls,
      ev.record ≠ some i := by
    intro ev hmem hrec
    rcases List.mem_append.1 hmem with ha | hb
    · obtain ⟨hr, _⟩ := Attempt1_calls_record w count bank.pools ev ha
      rw [hr] at hrec
      injection hrec with hrec
      omega
    · obtain ⟨j, q, hr, hq, he⟩ := Attempt2_calls_record w count _ 0 ev hb
      rw [hr] at hrec
      injection hrec with hrec
      rw [Nat.zero_add] at hrec he
      subst hrec
      rw [h1] at hq
      injection hq with hq
      subst hq
      rw [eligible_of_not_flagged w _ p hflag] at he
      cases he
  by_cases hr : DescriptorAllocator.reaches_attempt3 w count bank
  · obtain ⟨hh, _, hcalls, _, _⟩ := AllocateDescriptors_with_third device w bank count hr
    have hlen := congrArg List.length hh
    simp only [handles_length, List.length_append] at hlen
    obtain ⟨hgrown, hsame⟩ := Attempt3_pools device w count
      { info := bank.info,
        pools := (DescriptorAllocator.Attempt2 w count 0
          (DescriptorAllocator.Attempt1 w count bank.pools).pools).pools }
    have hi2 : i < (DescriptorAllocator.Attempt2 w count 0
        (DescriptorAllocator.Attempt1 w count bank.pools).pools).pools.length := by
      rw [third_attempt_pools_length]
      omega
    refine ⟨?_, by omega, ?_⟩
    · rw [AllocateDescriptors_of_third device w bank count hr]
      show (DescriptorAllocator.Attempt3 device w count _).bank.pools[i]? = some p
      cases hc : w.vkCreateDescriptorPool with
      | true =>
        obtain ⟨fresh, hfresh⟩ := hgrown hc
        rw [hfresh, List.getElem?_append_left hi2]
        exact h2
      | false =>
        rw [hsame hc]
        exact h2
    · intro ev hmem hrec
      rw [hcalls] at hmem
      rcases List.mem_append.1 hmem with ha | hb
      · exact hev ev ha hrec
      · simp only [List.mem_cons] at hb
        rcases hb with hb | hb
        · subst hb
          simp [Event.record] at hrec
        · split at hb
          · simp only [List.mem_singleton] at hb
            subst hb
            simp only [Event.record, Option.some.injEq] at hrec
            omega
          · simp at hb
  · rcases not_reaches_attempt3 w count bank hr with ⟨s1, e1⟩ | ⟨e1, s2, e2⟩
    · rw [AllocateDescriptors_of_first device w bank count s1 e1]
      refine ⟨h1, ?_, fun ev hmem => hev ev (List.mem_append_left _ hmem)⟩
      show i + 1 < (DescriptorAllocator.Attempt1 w count bank.pools).pools.length
      rw [Attempt1_length]
      exact hlast
    · rw [AllocateDescriptors_of_second device w bank count s2 e1 e2]
      refine ⟨h2, ?_, hev⟩
      show i + 1 < (DescriptorAllocator.Attempt2 w count 0 _).pools.length
      rw [third_attempt_pools_length]
      exact hlast

theorem run_untouched (device : Device) (calls : List Call) :
    ∀ (bank : DescriptorBank) (i : Nat) (p : PoolData), bank.pools[i]? = some p →
      p.previously_out_of_memory = false → i + 1 < bank.pools.length →
      (run device bank calls).1.pools[i]? = some p ∧
      i + 1 < (run device bank calls).1.pools.length ∧
      ∀ ev ∈ (run device bank calls).2, ev.record ≠ some i := by
  induction calls with
  | nil =>
    intro bank i p hp _ hlast
    exact ⟨hp, hlast, by intro ev hmem; simp [run] at hmem⟩
  | cons c rest ih =>
    intro bank i p hp hflag hlast
    obtain ⟨a1, a2, a3⟩ :=
      AllocateDescriptors_untouched device c.world bank c.count i p hp hflag hlast
    obtain ⟨b1, b2, b3⟩ := ih _ i p a1 hflag a2
    refine ⟨b1, b2, ?_⟩
    intro ev hmem
    simp only [run] at hmem
    rcases List.mem_append.1 hmem with h | h
    · exact a3 ev h
    · exact b3 ev h

/-- Claim C19: a record that is not the most recently created record of its
bank and is not flagged out of memory is left unchanged by
`AllocateDescriptors` and no allocation or reset is made on it; and since
records are only appended, the same holds after any sequence of
`AllocateDescriptors` calls: the record is never allocated from or reset
again. -/
theorem unflagged_inner_record_is_never_touched (device : Device) (bank : DescriptorBank)
    (i : Nat) (p : PoolData) (hp : bank.pools[i]? = some p)
    (hflag : p.previously_out_of_memory = false) (hlast : i + 1 < bank.pools.length) :
    (∀ w count,
      (DescriptorAllocator.AllocateDescriptors device w bank count).bank.pools[i]? = some p ∧
      (∀ tick result, Event.allocate i tick result ∉
        (DescriptorAllocator.AllocateDescriptors device w bank count).calls) ∧
      (∀ oom last completed, Event.reset i oom last completed ∉
        (DescriptorAllocator.AllocateDescriptors device w bank count).calls)) ∧
    (∀ calls,
      (run device bank calls).1.pools[i]? = some p ∧
      i + 1 < (run device bank calls).1.pools.length ∧
      (∀ tick result, Event.allocate i tick result ∉ (run device bank calls).2) ∧
      (∀ oom last completed, Event.reset i oom last completed ∉
        (run device bank calls).2)) := by
  constructor
  · intro w count
    obtain ⟨a1, _, a3⟩ := AllocateDescriptors_untouched device w bank count i p hp hflag hlast
    exact ⟨a1, fun tick result hmem => a3 _ hmem rfl,
      fun oom last completed hmem => a3 _ hmem rfl⟩
  · intro calls
    obtain ⟨b1, b2, b3⟩ := run_untouched device calls bank i p hp hflag hlast
    exact ⟨b1, b2, fun tick result hmem => b3 _ hmem rfl,
      fun oom last completed hmem => b3 _ hmem rfl⟩

/-- Witness of `unflagged_inner_record_is_never_touched`: record 0 of
`reclaimed_bank`, which the second attempt reset and which then served one
request, stays as it is through two further calls, the second of which resets
and reuses the newer record instead. -/
theorem unflagged_inner_record_is_never_touched_witness :
    reclaimed_bank.pools[0]? = some reclaimed_record ∧
    reclaimed_record.previously_out_of_memory = false ∧
    0 + 1 < reclaimed_bank.pools.length ∧
    (run sample_device reclaimed_bank sample_calls).1.pools[0]? = some reclaimed_record ∧
    (run sample_device reclaimed_bank sample_calls).2 =
      [Event.allocate 1 1 VkResult.VK_SUCCESS,
       Event.allocate 1 2 VkResult.VK_ERROR_OUT_OF_POOL_MEMORY,
       Event.reset 1 true 1 1,
       Event.allocate 1 2 VkResult.VK_SUCCESS] :=
  ⟨by decide, rfl, by decide,
    ((unflagged_inner_record_is_never_touched sample_device reclaimed_bank 0 reclaimed_record
      (by decide) rfl (by decide)).2 sample_calls).1,
    by decide⟩

/-! ## The registry over time -/

theorem AllocateDescriptors_info_length (device : Device) (w : World) (bank : DescriptorBank)
    (count : Nat) :
    (DescriptorAllocator.AllocateDescriptors device w bank count).bank.info = bank.info ∧
    bank.pools.length ≤
      (DescriptorAllocator.AllocateDescriptors device w bank count).bank.pools.length := by
  by_cases hr : DescriptorAllocator.reaches_attempt3 w count bank
  · obtain ⟨hh, hinfo, _⟩ := AllocateDescriptors_with_third device w bank count hr
    have hlen := congrArg List.length hh
    simp only [handles_length, List.length_append] at hlen
    exact ⟨hinfo, by omega⟩
  · obtain ⟨_, hh, hinfo, _⟩ := AllocateDescriptors_without_third device w bank count hr
    have hlen := congrArg List.length hh
    simp only [handles_length] at hlen
    exact ⟨hinfo, by omega⟩

theorem AllocateDescriptors_calls_head (device : Device) (w : World) (bank : DescriptorBank)
    (count : Nat) (hne : bank.pools ≠ []) :
    ∃ result, (DescriptorAllocator.AllocateDescriptors device w bank count).calls.head? =
      some (Event.allocate (bank.pools.length - 1) w.current_tick result) := by
  rcases List.eq_nil_or_concat bank.pools with hp | ⟨done, last, hp⟩
  · exact absurd hp hne
  · rw [List.concat_eq_append] at hp
    have hfirst : ∃ result, (DescriptorAllocator.Attempt1 w count bank.pools).calls =
        [Event.allocate (bank.pools.length - 1) w.current_tick result] := by
      rw [hp]
      by_cases hok : w.vkAllocateDescriptorSets done.length last.pool.resets =
          VkResult.VK_SUCCESS
      · rw [Attempt1_ok w count done last hok]
        exact ⟨VkResult.VK_SUCCESS, by simp⟩
      · rw [Attempt1_fail w count done last hok]
        exact ⟨w.vkAllocateDescriptorSets done.length last.pool.resets, by simp⟩
    obtain ⟨result, hcalls⟩ := hfirst
    refine ⟨result, ?_⟩
    by_cases hr : DescriptorAllocator.reaches_attempt3 w count bank
    · rw [AllocateDescriptors_of_third device w bank count hr]
      simp [hcalls]
    · rcases not_reaches_attempt3 w count bank hr with ⟨s1, e1⟩ | ⟨e1, s2, e2⟩
      · rw [AllocateDescriptors_of_first device w bank count s1 e1]
        simp [hcalls]
      · rw [AllocateDescriptors_of_second device w bank count s2 e1 e2]
        simp [hcalls]

theorem perform_parallel (device : Device) (self : DescriptorPool) (op : Operation)
    (hinfos : self.parallel) : (self.perform device op).parallel := by
  unfold DescriptorPool.parallel at hinfos ⊢
  cases op with
  | lookup created reqs =>
    by_cases hit : self.bank_infos.findIdx (DescriptorPool.is_match reqs) =
        self.bank_infos.length
    · cases created with
      | true =>
        simp only [DescriptorPool.perform, Bank_miss_eq device self reqs hit]
        simp [hinfos]
      | false =>
        simp only [DescriptorPool.perform, Bank_miss_failed_eq device self reqs hit]
        simp [hinfos]
    · simp only [DescriptorPool.perform, Bank_hit_eq device created self reqs hit]
      exact hinfos
  | allocate i world count =>
    cases hb : self.banks[i]? with
    | none =>
      simp only [DescriptorPool.perform, hb]
      exact hinfos
    | some bank =>
      simp only [DescriptorPool.perform, hb]
      obtain ⟨hinfo, _⟩ := AllocateDescriptors_info_length device world bank count
      have hi : i < self.banks.length := by
        rcases Nat.lt_or_ge i self.banks.length with h1 | h1
        · exact h1
        · rw [List.getElem?_eq_none h1] at hb
          cases hb
      have hget : self.banks[i] = bank := by
        rw [List.getElem?_eq_getElem hi] at hb
        exact Option.some.inj hb
      show self.bank_infos = (self.banks.set i _).map (fun b => b.info)
      rw [List.map_set, hinfo, hinfos]
      apply List.ext_getElem?
      intro k
      by_cases hk : k = i
      · subst hk
        simp [List.getElem?_set, hi, hget]
      · simp [List.getElem?_set, Ne.symm hk]

theorem perform_stocked (device : Device) (self : DescriptorPool) (op : Operation)
    (hcreated : op.pool_created = true) (hpools : self.stocked) :
    (self.perform device op).stocked := by
  unfold DescriptorPool.stocked at hpools ⊢
  cases op with
  | lookup created reqs =>
    have hc : created = true := hcreated
    subst hc
    by_cases hit : self.bank_infos.findIdx (DescriptorPool.is_match reqs) =
        self.bank_infos.length
    · simp only [DescriptorPool.perform, Bank_miss_eq device self reqs hit]
      intro b hb
      simp only [List.mem_append, List.mem_singleton] at hb
      rcases hb with hb | hb
      · exact hpools b hb
      · subst hb
        simp
    · simp only [DescriptorPool.perform, Bank_hit_eq device true self reqs hit]
      exact hpools
  | allocate i world count =>
    cases hb : self.banks[i]? with
    | none =>
      simp only [DescriptorPool.perform, hb]
      exact hpools
    | some bank =>
      simp only [DescriptorPool.perform, hb]
      obtain ⟨_, hlen⟩ := AllocateDescriptors_info_length device world bank count
      have hi : i < self.banks.length := by
        rcases Nat.lt_or_ge i self.banks.length with h1 | h1
        · exact h1
        · rw [List.getElem?_eq_none h1] at hb
          cases hb
      have hget : self.banks[i] = bank := by
        rw [List.getElem?_eq_getElem hi] at hb
        exact Option.some.inj hb
      intro b hmem
      rcases List.mem_or_eq_of_mem_set hmem with h1 | h1
      · exact hpools b h1
      · subst h1
        have hne : bank.pools ≠ [] := hpools bank (hget ▸ List.getElem_mem _)
        have hpos : 0 < bank.pools.length := List.length_pos.2 hne
        intro hnil
        have hzero := congrArg List.length hnil
        simp only [List.length_nil] at hzero
        omega

theorem perform_extended_by (device : Device) (self : DescriptorPool) (op : Operation) :
    self.extended_by (self.perform device op) := by
  cases op with
  | lookup created reqs =>
    by_cases hit : self.bank_infos.findIdx (DescriptorPool.is_match reqs) =
        self.bank_infos.length
    · have hmiss : (self.perform device (Operation.lookup created reqs)).bank_infos =
            self.bank_infos ++ [reqs] ∧
          ∃ b, (self.perform device (Operation.lookup created reqs)).banks =
            self.banks ++ [b] := by
        cases created with
        | true =>
          rw [DescriptorPool.perform, Bank_miss_eq device self reqs hit]
          exact ⟨rfl, _, rfl⟩
        | false =>
          rw [DescriptorPool.perform, Bank_miss_failed_eq device self reqs hit]
          exact ⟨rfl, _, rfl⟩
      obtain ⟨hmi, fresh, hmb⟩ := hmiss
      constructor
      · intro i info hi
        have hlt : i < self.bank_infos.length := by
          rcases Nat.lt_or_ge i self.bank_infos.length with h1 | h1
          · exact h1
          · rw [List.getElem?_eq_none h1] at hi
            cases hi
        rw [hmi, List.getElem?_append_left hlt]
        exact hi
      · intro i b hi
        have hlt : i < self.banks.length := by
          rcases Nat.lt_or_ge i self.banks.length with h1 | h1
          · exact h1
          · rw [List.getElem?_eq_none h1] at hi
            cases hi
        refine ⟨b, ?_, rfl⟩
        rw [hmb, List.getElem?_append_left hlt]
        exact hi
    · simp only [DescriptorPool.perform, Bank_hit_eq device created self reqs hit]
      exact ⟨fun _ _ h => h, fun _ b h => ⟨b, h, rfl⟩⟩
  | allocate k world count =>
    cases hb : self.banks[k]? with
    | none =>
      simp only [DescriptorPool.perform, hb]
      exact ⟨fun _ _ h => h, fun _ b h => ⟨b, h, rfl⟩⟩
    | some bank =>
      simp only [DescriptorPool.perform, hb]
      refine ⟨fun _ _ h => h, ?_⟩
      intro i b hi
      have hlt : i < self.banks.length := by
        rcases Nat.lt_or_ge i self.banks.length with h1 | h1
        · exact h1
        · rw [List.getElem?_eq_none h1] at hi
          cases hi
      by_cases hik : k = i
      · subst hik
        rw [hb] at hi
        injection hi with hi
        subst hi
        exact ⟨_, by simp [List.getElem?_set, hlt],
          (AllocateDescriptors_info_length device world bank count).1⟩
      · exact ⟨b, by simp [List.getElem?_set, hik, hi], rfl⟩

theorem exec_parallel (device : Device) (ops : List Operation) :
    ∀ self : DescriptorPool, self.parallel → (self.exec device ops).parallel := by
  induction ops with
  | nil =>
    intro self h
    exact h
  | cons op rest ih =>
    intro self h
    exact ih _ (perform_parallel device self op h)

theorem exec_stocked (device : Device) (ops : List Operation) :
    ∀ self : DescriptorPool, (∀ op ∈ ops, op.pool_created = true) → self.stocked →
      (self.exec device ops).stocked := by
  induction ops with
  | nil =>
    intro self _ h
    exact h
  | cons op rest ih =>
    intro self hall h
    exact ih _ (fun o ho => hall o (List.mem_cons_of_mem _ ho))
      (perform_stocked device self op (hall op (List.mem_cons_self _ _)) h)

theorem exec_extended_by (device : Device) (ops : List Operation) :
    ∀ self : DescriptorPool, self.extended_by (self.exec device ops) := by
  induction ops with
  | nil =>
    intro self
    exact ⟨fun _ _ h => h, fun _ b h => ⟨b, h, rfl⟩⟩
  | cons op rest ih =>
    intro self
    obtain ⟨a1, a2⟩ := perform_extended_by device self op
    obtain ⟨b1, b2⟩ := ih (self.perform device op)
    constructor
    · intro i info hi
      exact b1 i info (a1 i info hi)
    · intro i b hi
      obtain ⟨c, hc, hinfo⟩ := a2 i b hi
      obtain ⟨d, hd, hinfo2⟩ := b2 i c hc
      exact ⟨d, hd, by rw [hinfo2, hinfo]⟩

theorem exec_append (device : Device) (self : DescriptorPool) (ops more : List Operation) :
    self.exec device (ops ++ more) = (self.exec device ops).exec device more := by
  simp [DescriptorPool.exec, List.foldl_append]

/-- Claim C20 fails as stated: one lookup on the empty registry, for which the
driver fails to create the pool, leaves the registry with one bank that holds
no record; an `AllocateDescriptors` call on that bank skips the first attempt
and starts with a pool creation. -/
theorem failed_lookup_leaves_bank_without_record :
    (empty_registry.exec sample_device failed_lookup_operations).bank_infos =
      [four_uniform_buffers] ∧
    (empty_registry.exec sample_device failed_lookup_operations).banks =
      [{ info := four_uniform_buffers, pools := [] }] ∧
    (DescriptorAllocator.AllocateDescriptors sample_device world_tick_1
      { info := four_uniform_buffers, pools := [] } 16).calls =
      [Event.create (AllocatePool.create_info sample_device four_uniform_buffers),
       Event.allocate 0 1 VkResult.VK_SUCCESS] := by
  decide

/-- Claim C20 as amended: after every sequence of `Bank` lookups and
`AllocateDescriptors` calls starting from the empty registry, `bank_infos` and
`banks` have the same length and `banks[i].info` is `bank_infos[i]` for every
`i`; whatever operations follow, every stored bank info stays at its position
unchanged and every stored bank stays at its position with its info
unchanged.  When the driver created the pool of every lookup of the sequence,
every bank holds at least one record, so an `AllocateDescriptors` call on it
starts with the allocation against its last record. -/
theorem registry_parallel_and_append_only (device : Device) (ops more : List Operation) :
    (empty_registry.exec device ops).bank_infos.length =
      (empty_registry.exec device ops).banks.length ∧
    (∀ (i : Nat) (b : DescriptorBank), (empty_registry.exec device ops).banks[i]? = some b →
      (empty_registry.exec device ops).bank_infos[i]? = some b.info) ∧
    ((∀ op ∈ ops, op.pool_created = true) →
      ∀ b ∈ (empty_registry.exec device ops).banks,
        b.pools ≠ [] ∧
        ∀ w count, ∃ result,
          (DescriptorAllocator.AllocateDescriptors device w b count).calls.head? =
            some (Event.allocate (b.pools.length - 1) w.current_tick result)) ∧
    (∀ (i : Nat) (info : DescriptorBankInfo),
      (empty_registry.exec device ops).bank_infos[i]? = some info →
      (empty_registry.exec device (ops ++ more)).bank_infos[i]? = some info) ∧
    (∀ (i : Nat) (b : DescriptorBank), (empty_registry.exec device ops).banks[i]? = some b →
      ∃ b1 : DescriptorBank,
        (empty_registry.exec device (ops ++ more)).banks[i]? = some b1 ∧
        b1.info = b.info) := by
  have hinfos : (empty_registry.exec device ops).parallel :=
    exec_parallel device ops empty_registry rfl
  unfold DescriptorPool.parallel at hinfos
  obtain ⟨e1, e2⟩ := exec_extended_by device more (empty_registry.exec device ops)
  rw [exec_append]
  refine ⟨by rw [hinfos, List.length_map], ?_, ?_, e1, e2⟩
  · intro i b hb
    rw [hinfos, List.getElem?_map, hb]
    rfl
  · intro hall b hb
    have hpools : (empty_registry.exec device ops).stocked :=
      exec_stocked device ops empty_registry hall (by
        intro b0 hb0
        simp [empty_registry] at hb0)
    exact ⟨hpools b hb, fun w count =>
      AllocateDescriptors_calls_head device w b count (hpools b hb)⟩

/-- Witness of `registry_parallel_and_append_only`: two lookups create two
banks, the driver creating both pools; two allocations then grow the first
bank to two records; both bank infos are in place, the two vectors have the
same length and every bank holds a record. -/
theorem registry_parallel_and_append_only_witness :
    (∀ op ∈ sample_operations, op.pool_created = true) ∧
    (empty_registry.exec sample_device sample_operations).bank_infos =
      [four_uniform_buffers, ten_image_buffers] ∧
    (empty_registry.exec sample_device sample_operations).bank_infos.length =
      (empty_registry.exec sample_device sample_operations).banks.length ∧
    (empty_registry.exec sample_device sample_operations).banks.map
      (fun b => b.pools.length) = [2, 1] ∧
    (∀ b ∈ (empty_registry.exec sample_device sample_operations).banks, b.pools ≠ []) :=
  have hall : ∀ op ∈ sample_operations, op.pool_created = true := by
    intro op hop
    simp only [sample_operations, List.mem_cons, List.mem_singleton, List.not_mem_nil,
      or_false] at hop
    rcases hop with h | h | h | h <;> subst h <;> rfl
  have h := registry_parallel_and_append_only sample_device sample_operations []
  ⟨hall, by decide, h.1, by decide, fun b hb => (h.2.2.1 hall b hb).1⟩

end Vulkan
